import Mathlib

set_option maxHeartbeats 1000000
set_option maxRecDepth 10000

/-!
Shallow embedding of the mdl `DeviceResponse` verifier.

The embedding follows the compiled verifier (`Verifier` class: the methods
`verifyIssuerSignature`, `verifyDeviceSignature`, `verifyData`, `verify`,
`getDiagnosticInformation`), the check-callback module (`defaultCallback`,
`buildCallback`, `onCatCheck`) and `MDoc.addDocument`.

Modelling conventions:
* JavaScript `Date` values are epoch instants modelled as `Int`; their
  `<`/`>` comparisons are numeric in both worlds.  `toUTCString` is an
  injective rendering and is modelled by `toString`.
* Byte strings are `List Nat`.
* External cryptographic primitives (COSE signature and MAC verification,
  X.509 path signatures) are not part of this repository; their outcomes are
  carried as abstract fields of the parsed structures
  (`signatureValid`, `chainError`, `verifyResult`).  The digest primitive is
  a parameter `H : String → List Nat → List Nat` (algorithm name → bytes →
  digest).
* A check callback (JS `onCheck`) either returns normally (`none`) or throws
  an exception carrying a message (`some msg`).  A `Run` records the
  assessments that were handed to the callback, in order, and the exception
  (from the callback or from the verifier itself) that escaped, if any.
* Assessment category is attached at emission time, mirroring `onCatCheck`.
-/

inductive Status where
  | PASSED
  | FAILED
  | WARNING
deriving DecidableEq, Repr

inductive Category where
  | DOCUMENT_FORMAT
  | ISSUER_AUTH
  | DEVICE_AUTH
  | DATA_INTEGRITY
deriving DecidableEq, Repr

structure Assessment where
  status : Status
  category : Category
  check : String
  reason : Option String := none
deriving DecidableEq, Repr

/-- A check callback: `none` means the callback returned normally, `some msg`
means it threw an exception whose message is `msg`. -/
abbrev Callback := Assessment → Option String

/-- `defaultCallback` from `checkCallback.js`: on a FAILED assessment it
throws `MDLError(reason ?? check)`; otherwise it returns normally. -/
def defaultCallback (a : Assessment) : Option String :=
  if a.status = Status.FAILED then some (a.reason.getD a.check) else none

/-- A user-supplied callback that only records the assessment and never
throws (the collector used by `getDiagnosticInformation`). -/
def collectCallback (_ : Assessment) : Option String := none

/-- `buildCallback` from `checkCallback.js`: with no user callback the
default one is used; a user callback is invoked as given (it receives the
default one as second argument and throws only if it chooses to). -/
def buildCallback (cb : Option Callback) : Callback :=
  match cb with
  | none => defaultCallback
  | some f => f

/-- The observable effect of running a piece of the verifier: the
assessments delivered to the callback, in order, and the exception that
escaped, if any. -/
structure Run where
  delivered : List Assessment
  err : Option String
deriving DecidableEq, Repr

def Run.done : Run := ⟨[], none⟩

/-- Hand one assessment to the callback. The callback receives the
assessment even when it then throws. -/
def emit (cb : Callback) (a : Assessment) : Run := ⟨[a], cb a⟩

/-- Sequential composition: the second part runs only if the first did not
throw. -/
def Run.seq (r1 r2 : Run) : Run :=
  match r1.err with
  | some _ => r1
  | none => ⟨r1.delivered ++ r2.delivered, r2.err⟩

/-- JS `try { r } catch (err) { handler err.message }`. -/
def Run.tryCatch (r : Run) (handler : String → Run) : Run :=
  match r.err with
  | none => r
  | some e => ⟨r.delivered ++ (handler e).delivered, (handler e).err⟩

def emitAll (cb : Callback) : List Assessment → Run
  | [] => Run.done
  | a :: rest => (emit cb a).seq (emitAll cb rest)

def runAll : List Run → Run
  | [] => Run.done
  | r :: rest => r.seq (runAll rest)

theorem runAll_cons (r : Run) (rs : List Run) : runAll (r :: rs) = r.seq (runAll rs) := rfl

/-! ## Data model (parsed `DeviceResponse`) -/

/-- JS truthiness of a possibly-missing string (`undefined` and `""` are
falsy). -/
def optStrTruthy : Option String → Bool
  | none => false
  | some s => !(s == "")

/-- String interpolation of a possibly-undefined JS value. -/
def optStrRender : Option String → String
  | none => "undefined"
  | some s => s

/-- Injective stand-in for `Date.prototype.toUTCString`. -/
def toUTCString (t : Int) : String := toString t

structure ValidityInfo where
  signed : Int
  validFrom : Int
  validUntil : Int
deriving DecidableEq, Repr

structure Certificate where
  subjectName : String
  issuerName : String
  serialNumber : String
  notBefore : Int
  notAfter : Int
  countryName : Option String
  stateOrProvince : Option String
deriving DecidableEq, Repr

structure CoseKey where
  raw : List Nat
deriving DecidableEq, Repr

structure DeviceKeyInfo where
  deviceKey : Option CoseKey
deriving DecidableEq, Repr

structure MSO where
  digestAlgorithm : String
  valueDigests : List (String × List (Nat × List Nat))
  deviceKeyInfo : Option DeviceKeyInfo
  docType : String
  validityInfo : ValidityInfo
deriving DecidableEq, Repr

structure IssuerSignedItem where
  digestID : Nat
  elementIdentifier : String
  elementValue : String
  originalBytes : List Nat
deriving DecidableEq, Repr

structure IssuerAuth where
  x5chain : List Certificate
  algName : String
  signatureValid : Bool
  chainError : Option String
  decodedPayload : MSO
deriving DecidableEq, Repr

/-- The leaf certificate is the head of `x5chain`. -/
def IssuerAuth.certificate (ia : IssuerAuth) : Option Certificate :=
  ia.x5chain.head?

/-- Subject `C` of the leaf certificate, when both exist. -/
def IssuerAuth.countryName (ia : IssuerAuth) : Option String :=
  ia.certificate.bind Certificate.countryName

/-- Subject `ST` of the leaf certificate, when both exist. -/
def IssuerAuth.stateOrProvince (ia : IssuerAuth) : Option String :=
  ia.certificate.bind Certificate.stateOrProvince

structure IssuerSigned where
  nameSpaces : List (String × List IssuerSignedItem)
  issuerAuth : IssuerAuth
deriving DecidableEq, Repr

def exceptEqDec {ε α : Type} [DecidableEq ε] [DecidableEq α] : DecidableEq (Except ε α)
  | Except.error e, Except.error f =>
    if h : e = f then isTrue (congrArg Except.error h)
    else isFalse (fun he => h (Except.error.inj he))
  | Except.error _, Except.ok _ => isFalse (fun he => Except.noConfusion he)
  | Except.ok _, Except.error _ => isFalse (fun he => Except.noConfusion he)
  | Except.ok a, Except.ok b =>
    if h : a = b then isTrue (congrArg Except.ok h)
    else isFalse (fun he => h (Except.ok.inj he))

instance {ε α : Type} [DecidableEq ε] [DecidableEq α] : DecidableEq (Except ε α) :=
  exceptEqDec

structure DeviceSig where
  algName : String
  verifyResult : Except String Bool
deriving DecidableEq, Repr

structure DeviceMac where
  algName : String
  alg : Int
  verifyResult : Except String Bool
deriving DecidableEq, Repr

structure DeviceAuth where
  deviceSignature : Option DeviceSig
  deviceMac : Option DeviceMac
deriving DecidableEq, Repr

structure DeviceSigned where
  nameSpaces : List (String × List (String × String))
  deviceAuth : DeviceAuth
deriving DecidableEq, Repr

/-- A parsed document; `deviceSigned = none` models an
`IssuerSignedDocument` that is not a `DeviceSignedDocument`. -/
structure Document where
  docType : String
  issuerSigned : IssuerSigned
  deviceSigned : Option DeviceSigned
deriving DecidableEq, Repr

structure DeviceResponse where
  version : String
  documents : List Document
  status : Nat
deriving DecidableEq, Repr

structure VerifyOptions where
  encodedSessionTranscript : Option (List Nat) := none
  ephemeralReaderKey : Option (List Nat) := none
  disableCertificateChainValidation : Bool := false
deriving DecidableEq, Repr

/-- The digest primitive: algorithm name and input bytes to digest bytes. -/
abbrev DigestFn := String → List Nat → List Nat

def MDL_NAMESPACE : String := "org.iso.18013.5.1"

def DIGEST_ALGS : List String := ["SHA-256", "SHA-384", "SHA-512"]

/-! ## Check and reason texts (verbatim from the verifier) -/

def certValidCheck : String := "Issuer certificate must be valid"

def sigValidCheck : String := "Issuer signature must be valid"

def msoSignedCheck : String :=
  "The MSO signed date must be within the validity period of the certificate"

def msoValidCheck : String := "The MSO must be valid at the time of verification"

def countryPresentCheck : String :=
  "Country name (C) must be present in the issuer certificate\x27s subject distinguished name"

def msoSignedReason (signed nb na : Int) : String :=
  "The MSO signed date (" ++ toUTCString signed ++
    ") must be within the validity period of the certificate (" ++
    toUTCString nb ++ " to " ++ toUTCString na ++ ")"

def msoValidReason (now : Int) : String :=
  "The MSO must be valid at the time of verification (" ++ toUTCString now ++ ")"

def notDeviceSignedCheck : String := "The document is not signed by the device."

def deviceAuthPresenceCheck : String :=
  "Device Auth must contain a deviceSignature or deviceMac element"

def transcriptMissingCheck : String :=
  "Session Transcript Bytes missing from options, aborting device signature check"

def deviceKeyCheck : String := "Issuer signature must contain the device key."

def deviceKeyReason : String :=
  "Unable to verify deviceAuth signature: missing device key in issuerAuth"

def deviceSigCheck : String := "Device signature must be valid"

def macPresentCheck : String :=
  "Device MAC must be present when using MAC authentication"

def macAlgCheck : String := "Device MAC must use alg 5 (HMAC 256/256)"

def ephPresentCheck : String :=
  "Ephemeral private key must be present when using MAC authentication"

def macValidCheck : String := "Device MAC must be valid"

def algCheck : String :=
  "Issuer Auth must include a supported digestAlgorithm element"

def nsDigestsCheckStart : String := "Issuer Auth must include digests for namespace: "

def nsDigestsCheck (ns : String) : String := nsDigestsCheckStart ++ ns

def digestCheckStart : String := "The calculated digest for "

def digestCheck (ns id : String) : String :=
  digestCheckStart ++
    (ns ++ "/" ++ id ++
      " attribute must match the digest in the issuerAuth element")

def countryCheck : String :=
  "The \x27issuing_country\x27 if present must match the \x27countryName\x27 in the subject field within the DS certificate"

def cannotVerifyReason : String :=
  "The \x27issuing_country\x27 and \x27issuing_jurisdiction\x27 cannot be verified because the DS certificate was not provided"

def countryReason (v cn : String) : String :=
  "The \x27issuing_country\x27 (" ++ v ++ ") must match the \x27countryName\x27 (" ++
    cn ++ ") in the subject field within the issuer certificate"

def jurisdictionCheck : String :=
  "The \x27issuing_jurisdiction\x27 if present must match the \x27stateOrProvinceName\x27 in the subject field within the DS certificate"

def jurisdictionReason (v sp : String) : String :=
  "The \x27issuing_jurisdiction\x27 (" ++ v ++ ") must match the \x27stateOrProvinceName\x27 (" ++
    sp ++ ") in the subject field within the issuer certificate"

def versionPresentCheck : String :=
  "Device Response must include \"version\" element."

def versionGECheck : String := "Device Response version must be 1.0 or greater"

def docsPresentCheck : String :=
  "Device Response must include at least one document."

/-- Message of the TypeError thrown when the reason string of the MSO signed
date assessment dereferences a missing certificate. -/
def typeErrNotBefore : String :=
  "Cannot read properties of undefined (reading \x27notBefore\x27)"

/-- Message of the TypeError thrown when `verifyData` dereferences a missing
certificate for the mdl namespace cross-checks. -/
def typeErrIssuerName : String :=
  "Cannot read properties of undefined (reading \x27issuerName\x27)"

/-- Message of the TypeError thrown when `getDiagnosticInformation`
dereferences `documents[0]` of an empty list. -/
def typeErrIssuerSigned : String :=
  "Cannot read properties of undefined (reading \x27issuerSigned\x27)"

/-! ## Parts of the repository that are not under `src/` -/

/-- Modelled from the spec: `IssuerAuth.verifyX509Chain` (the COSE/X.509
helper of the parser, absent from the provided sources) extracts the leaf
certificate from `x5chain` and, if it is absent, fails; otherwise the
abstract outcome of path validation against the configured roots is
returned (`none` = the chain is valid). -/
def verifyX509Chain (ia : IssuerAuth) : Option String :=
  match ia.x5chain with
  | [] => some "No x5chain element found in the issuerAuth"
  | _ :: _ => ia.chainError

/-- Look up `valueDigests[ns]`. -/
def lookupNS (vd : List (String × List (Nat × List Nat))) (ns : String) :
    Option (List (Nat × List Nat)) :=
  (vd.find? (fun p => p.1 == ns)).map (fun p => p.2)

/-- Look up `valueDigests[ns][digestID]`. -/
def lookupDigest (mso : MSO) (ns : String) (digestID : Nat) : Option (List Nat) :=
  match lookupNS mso.valueDigests ns with
  | none => none
  | some digests => (digests.find? (fun p => p.1 == digestID)).map (fun p => p.2)

/-- Modelled from the spec: `IssuerSignedItem.isValid` (absent from the
provided sources) recomputes `H(digestAlgorithm, originalEncodedBytes)` and
compares it with `valueDigests[ns][digestID]` in the MSO. -/
def IssuerSignedItem.isValid (H : DigestFn) (item : IssuerSignedItem)
    (ns : String) (ia : IssuerAuth) : Bool :=
  match lookupDigest ia.decodedPayload ns item.digestID with
  | none => false
  | some d => H ia.decodedPayload.digestAlgorithm item.originalBytes == d

/-- Modelled from the spec: `IssuerSignedItem.matchCertificate` (absent from
the provided sources) compares `issuing_country` with the leaf subject
`countryName` and `issuing_jurisdiction` with its `stateOrProvinceName`;
for other elements it is undefined. -/
def matchCertificate? (item : IssuerSignedItem) (ia : IssuerAuth) : Option Bool :=
  if item.elementIdentifier == "issuing_country" then
    some (ia.countryName == some item.elementValue)
  else if item.elementIdentifier == "issuing_jurisdiction" then
    some (ia.stateOrProvince == some item.elementValue)
  else none

/-- JS truthiness of the `matchCertificate` result. -/
def matchCertificateB (item : IssuerSignedItem) (ia : IssuerAuth) : Bool :=
  (matchCertificate? item ia).getD false

/-- Modelled from the spec: `deviceMac.hasSupportedAlg` — the only supported
MAC algorithm is 5 (HMAC 256/256). -/
def hasSupportedAlg (mac : DeviceMac) : Bool := mac.alg == 5

/-- Minimal dotted numeric comparison standing in for the external
`compare-versions` package: `versionAtLeast v w` iff `v ≥ w` (digits only). -/
def segsOfChars : List Char → Nat → List Nat
  | [], acc => [acc]
  | c :: cs, acc =>
    if c = Char.ofNat 46 then acc :: segsOfChars cs 0
    else segsOfChars cs (acc * 10 + (c.toNat - 48))

def versionSegs (s : String) : List Nat := segsOfChars s.data 0

def hasNonZero : List Nat → Bool
  | [] => false
  | b :: bs => !(b == 0) || hasNonZero bs

def segsLt : List Nat → List Nat → Bool
  | [], bs => hasNonZero bs
  | _ :: _, [] => false
  | a :: as, b :: bs => a < b || (a == b && segsLt as bs)

def versionAtLeast (v w : String) : Bool := !(segsLt (versionSegs v) (versionSegs w))

/-! ## Verifier.verifyIssuerSignature -/

def verifyIssuerSignature (cb : Callback) (disableCertificateChainValidation : Bool)
    (ia : IssuerAuth) (now : Int) : Run :=
  let chainPart : Run :=
    if disableCertificateChainValidation then Run.done
    else
      Run.tryCatch
        (match verifyX509Chain ia with
         | some e => ⟨[], some e⟩
         | none => emit cb ⟨Status.PASSED, Category.ISSUER_AUTH, certValidCheck, none⟩)
        (fun e => emit cb ⟨Status.FAILED, Category.ISSUER_AUTH, certValidCheck, some e⟩)
  let sigPart : Run :=
    emit cb ⟨if ia.certificate.isSome && ia.signatureValid then Status.PASSED else Status.FAILED,
             Category.ISSUER_AUTH, sigValidCheck, none⟩
  let vi := ia.decodedPayload.validityInfo
  let validityPart : Run :=
    match ia.certificate with
    | none => ⟨[], some typeErrNotBefore⟩
    | some c =>
      (emit cb ⟨if vi.signed < c.notBefore ∨ vi.signed > c.notAfter then Status.FAILED else Status.PASSED,
                Category.ISSUER_AUTH, msoSignedCheck,
                some (msoSignedReason vi.signed c.notBefore c.notAfter)⟩).seq
      ((emit cb ⟨if now < vi.validFrom ∨ now > vi.validUntil then Status.FAILED else Status.PASSED,
                 Category.ISSUER_AUTH, msoValidCheck, some (msoValidReason now)⟩).seq
       (emit cb ⟨if optStrTruthy ia.countryName then Status.PASSED else Status.FAILED,
                 Category.ISSUER_AUTH, countryPresentCheck, none⟩))
  chainPart.seq (sigPart.seq validityPart)

/-! ## Verifier.verifyDeviceSignature -/

def verifyDeviceSignature (cb : Callback) (doc : Document)
    (ephemeralPrivateKey sessionTranscriptBytes : Option (List Nat)) : Run :=
  match doc.deviceSigned with
  | none => emit cb ⟨Status.FAILED, Category.DEVICE_AUTH, notDeviceSignedCheck, none⟩
  | some dsg =>
    let da := dsg.deviceAuth
    if da.deviceMac.isNone && da.deviceSignature.isNone then
      emit cb ⟨Status.FAILED, Category.DEVICE_AUTH, deviceAuthPresenceCheck, none⟩
    else if sessionTranscriptBytes.isNone then
      emit cb ⟨Status.FAILED, Category.DEVICE_AUTH, transcriptMissingCheck, none⟩
    else
      let deviceKey := doc.issuerSigned.issuerAuth.decodedPayload.deviceKeyInfo.bind
        DeviceKeyInfo.deviceKey
      if deviceKey.isNone then
        emit cb ⟨Status.FAILED, Category.DEVICE_AUTH, deviceKeyCheck, some deviceKeyReason⟩
      else
        match da.deviceSignature with
        | some ds =>
          Run.tryCatch
            (match ds.verifyResult with
             | Except.error e => ⟨[], some e⟩
             | Except.ok b =>
               emit cb ⟨if b then Status.PASSED else Status.FAILED,
                        Category.DEVICE_AUTH, deviceSigCheck, none⟩)
            (fun e => emit cb ⟨Status.FAILED, Category.DEVICE_AUTH, deviceSigCheck,
              some ("Unable to verify deviceAuth signature (ECDSA/EdDSA): " ++ e)⟩)
        | none =>
          (emit cb ⟨if da.deviceMac.isSome then Status.PASSED else Status.FAILED,
                    Category.DEVICE_AUTH, macPresentCheck, none⟩).seq
          (match da.deviceMac with
           | none => Run.done
           | some mac =>
             (emit cb ⟨if hasSupportedAlg mac then Status.PASSED else Status.FAILED,
                       Category.DEVICE_AUTH, macAlgCheck, none⟩).seq
             (if !hasSupportedAlg mac then Run.done
              else
                (emit cb ⟨if ephemeralPrivateKey.isSome then Status.PASSED else Status.FAILED,
                          Category.DEVICE_AUTH, ephPresentCheck, none⟩).seq
                (if ephemeralPrivateKey.isNone then Run.done
                 else
                   Run.tryCatch
                     (match mac.verifyResult with
                      | Except.error e => ⟨[], some e⟩
                      | Except.ok b =>
                        emit cb ⟨if b then Status.PASSED else Status.FAILED,
                                 Category.DEVICE_AUTH, macValidCheck, none⟩)
                     (fun e => emit cb ⟨Status.FAILED, Category.DEVICE_AUTH, macValidCheck,
                       some ("Unable to verify deviceAuth MAC: " ++ e)⟩))))

/-! ## Verifier.verifyData -/

/-- The two mdl-namespace cross-checks against the DS certificate. -/
def mdlCrossChecks (cb : Callback) (ia : IssuerAuth)
    (verifications : List (IssuerSignedItem × Bool)) : Run :=
  match ia.certificate with
  | none => ⟨[], some typeErrIssuerName⟩
  | some c =>
    if c.issuerName == "" then
      emit cb ⟨Status.FAILED, Category.DATA_INTEGRITY, countryCheck, some cannotVerifyReason⟩
    else
      let invalidCountry :=
        (verifications.filter (fun v => v.1.elementIdentifier == "issuing_country")).find?
          (fun v => !v.2 || !matchCertificateB v.1 ia)
      let invalidJurisdiction :=
        (verifications.filter (fun v => v.1.elementIdentifier == "issuing_jurisdiction")).find?
          (fun v => !v.2 || (optStrTruthy ia.stateOrProvince && !matchCertificateB v.1 ia))
      (emit cb ⟨if invalidCountry.isSome then Status.FAILED else Status.PASSED,
                Category.DATA_INTEGRITY, countryCheck,
                match invalidCountry with
                | some v => some (countryReason v.1.elementValue (optStrRender ia.countryName))
                | none => none⟩).seq
      (emit cb ⟨if invalidJurisdiction.isSome then Status.FAILED else Status.PASSED,
                Category.DATA_INTEGRITY, jurisdictionCheck,
                match invalidJurisdiction with
                | some v => some (jurisdictionReason v.1.elementValue (optStrRender ia.stateOrProvince))
                | none => none⟩)

/-- Verification of one namespace of `issuerSigned.nameSpaces`. -/
def verifyDataNS (cb : Callback) (H : DigestFn) (ia : IssuerAuth)
    (ns : String) (items : List IssuerSignedItem) : Run :=
  let verifications := items.map (fun it => (it, it.isValid H ns ia))
  (emit cb ⟨if (lookupNS ia.decodedPayload.valueDigests ns).isSome then Status.PASSED else Status.FAILED,
            Category.DATA_INTEGRITY, nsDigestsCheck ns, none⟩).seq
  ((emitAll cb ((verifications.filter (fun v => v.2)).map
      (fun v => ⟨Status.PASSED, Category.DATA_INTEGRITY,
                 digestCheck ns v.1.elementIdentifier, none⟩))).seq
   ((emitAll cb ((verifications.filter (fun v => !v.2)).map
       (fun v => ⟨Status.FAILED, Category.DATA_INTEGRITY,
                  digestCheck ns v.1.elementIdentifier, none⟩))).seq
    (if ns == MDL_NAMESPACE then mdlCrossChecks cb ia verifications else Run.done)))

def verifyData (cb : Callback) (H : DigestFn) (doc : Document) : Run :=
  let ia := doc.issuerSigned.issuerAuth
  (emit cb ⟨if DIGEST_ALGS.contains ia.decodedPayload.digestAlgorithm then Status.PASSED else Status.FAILED,
            Category.DATA_INTEGRITY, algCheck, none⟩).seq
  (runAll (doc.issuerSigned.nameSpaces.map (fun p => verifyDataNS cb H ia p.1 p.2)))

/-! ## Verifier.verify -/

def verifyDocument (cb : Callback) (H : DigestFn) (now : Int)
    (opts : VerifyOptions) (doc : Document) : Run :=
  (verifyIssuerSignature cb opts.disableCertificateChainValidation
      doc.issuerSigned.issuerAuth now).seq
  ((verifyDeviceSignature cb doc opts.ephemeralReaderKey
      opts.encodedSessionTranscript).seq
   (verifyData cb H doc))

def verify (cb : Callback) (H : DigestFn) (now : Int)
    (dr : DeviceResponse) (opts : VerifyOptions) : Run :=
  (emit cb ⟨if !(dr.version == "") then Status.PASSED else Status.FAILED,
            Category.DOCUMENT_FORMAT, versionPresentCheck, none⟩).seq
  ((emit cb ⟨if versionAtLeast dr.version "1.0" then Status.PASSED else Status.FAILED,
             Category.DOCUMENT_FORMAT, versionGECheck, none⟩).seq
   ((emit cb ⟨if dr.documents.length > 0 then Status.PASSED else Status.FAILED,
              Category.DOCUMENT_FORMAT, docsPresentCheck, none⟩).seq
    (runAll (dr.documents.map (verifyDocument cb H now opts)))))

/-! ## Verifier.getDiagnosticInformation -/

structure GeneralReport where
  version : String
  type : String
  status : Nat
  documents : Nat
deriving DecidableEq, Repr

structure CertificateReport where
  subjectName : String
  serialNumber : String
  notBefore : Int
  notAfter : Int
deriving DecidableEq, Repr

structure SignatureReport where
  alg : String
  isValid : Bool
  reasons : List String
  digests : List (String × Nat)
deriving DecidableEq, Repr

structure DeviceSignatureReport where
  alg : Option String
  isValid : Bool
  reasons : List String
deriving DecidableEq, Repr

structure DataIntegrityReport where
  disclosedAttributes : String
  isValid : Bool
  reasons : List String
deriving DecidableEq, Repr

structure AttributeReport where
  ns : String
  id : String
  value : String
  isValid : Bool
  matchCertificate : Option Bool
deriving DecidableEq, Repr

structure DiagnosticReport where
  general : GeneralReport
  validityInfo : ValidityInfo
  issuerCertificate : Option CertificateReport
  issuerSignature : SignatureReport
  deviceKey : Option CoseKey
  deviceSignature : Option DeviceSignatureReport
  dataIntegrity : DataIntegrityReport
  attributes : List AttributeReport
  deviceAttributes : Option (List (String × String × String))
deriving DecidableEq, Repr

def categoryValid (delivered : List Assessment) (cat : Category) : Bool :=
  (delivered.filter (fun a => a.category == cat)).all (fun a => a.status == Status.PASSED)

def categoryReasons (delivered : List Assessment) (cat : Category) : List String :=
  (delivered.filter (fun a => a.category == cat && a.status == Status.FAILED)).map
    (fun a => a.reason.getD a.check)

/-- `getDiagnosticInformation`: runs `verify` with a collecting callback and
derives the report from the first document and the collected assessments.
The external certificate renderings (`pem`, `thumbprint`) are not modelled.
`deviceKey` carries the COSE key whose JWK rendering the report exposes. -/
def getDiagnosticInformation (H : DigestFn) (now : Int)
    (dr : DeviceResponse) (opts : VerifyOptions) : Except String DiagnosticReport :=
  let t := verify collectCallback H now dr opts
  match t.err with
  | some e => Except.error e
  | none =>
    match dr.documents with
    | [] => Except.error typeErrIssuerSigned
    | document :: _ =>
      let ia := document.issuerSigned.issuerAuth
      let attributes := document.issuerSigned.nameSpaces.map (fun p =>
        p.2.map (fun item =>
          AttributeReport.mk p.1 item.elementIdentifier item.elementValue
            (item.isValid H p.1 ia) (matchCertificate? item ia)))
      let attributesFlat := attributes.flatten
      let disclosed := (attributesFlat.filter (fun a => a.isValid)).length
      let total := ia.decodedPayload.valueDigests.foldl (fun acc p => acc + p.2.length) 0
      Except.ok
        { general := ⟨dr.version, "DeviceResponse", dr.status, dr.documents.length⟩
          validityInfo := ia.decodedPayload.validityInfo
          issuerCertificate := ia.x5chain.head?.map (fun c =>
            ⟨c.subjectName, c.serialNumber, c.notBefore, c.notAfter⟩)
          issuerSignature :=
            ⟨ia.algName, categoryValid t.delivered Category.ISSUER_AUTH,
             categoryReasons t.delivered Category.ISSUER_AUTH,
             ia.decodedPayload.valueDigests.map (fun p => (p.1, p.2.length))⟩
          deviceKey := ia.decodedPayload.deviceKeyInfo.bind DeviceKeyInfo.deviceKey
          deviceSignature := document.deviceSigned.map (fun dsg =>
            ⟨(dsg.deviceAuth.deviceSignature.map DeviceSig.algName).orElse
               (fun _ => dsg.deviceAuth.deviceMac.map DeviceMac.algName),
             categoryValid t.delivered Category.DEVICE_AUTH,
             categoryReasons t.delivered Category.DEVICE_AUTH⟩)
          dataIntegrity :=
            ⟨toString disclosed ++ " of " ++ toString total,
             categoryValid t.delivered Category.DATA_INTEGRITY,
             categoryReasons t.delivered Category.DATA_INTEGRITY⟩
          attributes := attributesFlat
          deviceAttributes := document.deviceSigned.map (fun dsg =>
            (dsg.nameSpaces.map (fun p => p.2.map (fun q => (p.1, q.1, q.2)))).flatten) }

/-! ## MDoc (`src/mdoc/model/MDoc.ts`) -/

/-- An `IssuerSignedDocument` as received by `MDoc.addDocument`; the runtime
check tolerates a missing `issuerSigned`, so the field is optional here. -/
structure MDocDocument where
  docType : String
  issuerSigned : Option IssuerSigned
deriving DecidableEq, Repr

structure DocumentError where
  docType : String
  errorCode : Nat
deriving DecidableEq, Repr

structure MDoc where
  documents : List MDocDocument := []
  version : String := "1.0"
  status : Nat := 0
  documentErrors : List DocumentError := []
deriving DecidableEq, Repr

/-- `MDoc.addDocument`: returns the updated container, or the thrown error
message with the container unchanged (the JS method mutates `this`; a throw
happens before the mutation). -/
def MDoc.addDocument (m : MDoc) (document : MDocDocument) : MDoc × Option String :=
  if document.issuerSigned.isNone then
    (m, some "Cannot add an unsigned document")
  else
    ({ m with documents := m.documents ++ [document] }, none)

/-! ## Helper definitions: plain-list form of the collect-mode runs -/

def mkDigestA (ns : String) (st : Status) (it : IssuerSignedItem) : Assessment :=
  ⟨st, Category.DATA_INTEGRITY, digestCheck ns it.elementIdentifier, none⟩

/-- The first `issuing_country` item whose digest or country match fails. -/
def invalidCountryI (H : DigestFn) (ia : IssuerAuth) (ns : String)
    (items : List IssuerSignedItem) : Option IssuerSignedItem :=
  (items.filter (fun it => it.elementIdentifier == "issuing_country")).find?
    (fun it => !(it.isValid H ns ia) || !matchCertificateB it ia)

/-- The first `issuing_jurisdiction` item whose digest or jurisdiction match
fails. -/
def invalidJurisdictionI (H : DigestFn) (ia : IssuerAuth) (ns : String)
    (items : List IssuerSignedItem) : Option IssuerSignedItem :=
  (items.filter (fun it => it.elementIdentifier == "issuing_jurisdiction")).find?
    (fun it => !(it.isValid H ns ia) ||
      (optStrTruthy ia.stateOrProvince && !matchCertificateB it ia))

/-- The mdl-namespace cross-check assessments, as a plain list (certificate
present). -/
def crossListI (H : DigestFn) (ia : IssuerAuth) (ns : String)
    (items : List IssuerSignedItem) (c : Certificate) : List Assessment :=
  if c.issuerName == "" then
    [⟨Status.FAILED, Category.DATA_INTEGRITY, countryCheck, some cannotVerifyReason⟩]
  else
    [⟨if (invalidCountryI H ia ns items).isSome then Status.FAILED else Status.PASSED,
      Category.DATA_INTEGRITY, countryCheck,
      (invalidCountryI H ia ns items).map
        (fun it => countryReason it.elementValue (optStrRender ia.countryName))⟩,
     ⟨if (invalidJurisdictionI H ia ns items).isSome then Status.FAILED else Status.PASSED,
      Category.DATA_INTEGRITY, jurisdictionCheck,
      (invalidJurisdictionI H ia ns items).map
        (fun it => jurisdictionReason it.elementValue (optStrRender ia.stateOrProvince))⟩]

/-- The `issuing_country` cross-check assessment for the mdl namespace
(certificate present with a truthy issuer name). -/
def countryAOf (H : DigestFn) (ia : IssuerAuth)
    (items : List IssuerSignedItem) : Assessment :=
  ⟨if (invalidCountryI H ia MDL_NAMESPACE items).isSome then Status.FAILED else Status.PASSED,
   Category.DATA_INTEGRITY, countryCheck,
   (invalidCountryI H ia MDL_NAMESPACE items).map
     (fun it => countryReason it.elementValue (optStrRender ia.countryName))⟩

/-- The assessments produced for one namespace, as a plain list. -/
def nsBlock (H : DigestFn) (ia : IssuerAuth) (ns : String)
    (items : List IssuerSignedItem) : List Assessment :=
  ⟨if (lookupNS ia.decodedPayload.valueDigests ns).isSome then Status.PASSED else Status.FAILED,
   Category.DATA_INTEGRITY, nsDigestsCheck ns, none⟩ ::
  ((items.filter (fun it => it.isValid H ns ia)).map (mkDigestA ns Status.PASSED) ++
   ((items.filter (fun it => !(it.isValid H ns ia))).map (mkDigestA ns Status.FAILED) ++
    (if ns == MDL_NAMESPACE then
       match ia.certificate with
       | some c => crossListI H ia ns items c
       | none => []
     else [])))

/-- All assessments produced by `verifyData`, as a plain list. -/
def dataList (H : DigestFn) (doc : Document) : List Assessment :=
  ⟨if DIGEST_ALGS.contains doc.issuerSigned.issuerAuth.decodedPayload.digestAlgorithm
      then Status.PASSED else Status.FAILED,
   Category.DATA_INTEGRITY, algCheck, none⟩ ::
  (doc.issuerSigned.nameSpaces.map
    (fun p => nsBlock H doc.issuerSigned.issuerAuth p.1 p.2)).flatten

/-- The check texts of all per-element digest assessments of a document. -/
def digestChecks (doc : Document) : List String :=
  (doc.issuerSigned.nameSpaces.map (fun p =>
    p.2.map (fun it => digestCheck p.1 it.elementIdentifier))).flatten

/-! ## Concrete fixtures used by witnesses and counterexamples -/

def exH : DigestFn := fun _ bs => bs.map (fun b => b + 6)

def exCert : Certificate := ⟨"CN=DS", "CN=IACA", "01", 0, 100, some "US", some "NY"⟩

def exVI : ValidityInfo := ⟨10, 5, 50⟩

def exMSO : MSO :=
  ⟨"SHA-256", [(MDL_NAMESPACE, [(1, [7, 7]), (2, [8, 8])])], some ⟨some ⟨[1]⟩⟩,
   "org.iso.18013.5.1.mDL", exVI⟩

def exIA : IssuerAuth := ⟨[exCert], "ES256", true, none, exMSO⟩

def exIAnoCert : IssuerAuth := ⟨[], "ES256", true, none, exMSO⟩

def exCountryItem : IssuerSignedItem := ⟨1, "issuing_country", "US", [1, 1]⟩

def exNameItem : IssuerSignedItem := ⟨2, "family_name", "Doe", [2, 2]⟩

def exIS : IssuerSigned := ⟨[(MDL_NAMESPACE, [exCountryItem, exNameItem])], exIA⟩

def exSig : DeviceSig := ⟨"ES256", Except.ok true⟩

def exMacOk : DeviceMac := ⟨"HS256", 5, Except.ok true⟩

def exMacBad : DeviceMac := ⟨"HS256", 5, Except.ok false⟩

def exDocBoth : Document :=
  ⟨"org.iso.18013.5.1.mDL", ⟨[], exIA⟩, some ⟨[], ⟨some exSig, some exMacOk⟩⟩⟩

def exDocMacBad : Document :=
  ⟨"org.iso.18013.5.1.mDL", ⟨[], exIA⟩, some ⟨[], ⟨none, some exMacBad⟩⟩⟩

def exDocMac : Document :=
  ⟨"org.iso.18013.5.1.mDL", ⟨[], exIA⟩, some ⟨[], ⟨none, some exMacOk⟩⟩⟩

def exDocFull : Document :=
  ⟨"org.iso.18013.5.1.mDL", exIS, some ⟨[("org.iso.18013.5.1", [("age_over_21", "true")])],
    ⟨some exSig, none⟩⟩⟩

def exOpts : VerifyOptions := ⟨some [1], some [2], false⟩

/-! ## General lemmas about runs -/

theorem emit_collect (a : Assessment) : emit collectCallback a = ⟨[a], none⟩ := rfl

theorem seq_ok (l : List Assessment) (r : Run) :
    Run.seq ⟨l, none⟩ r = ⟨l ++ r.delivered, r.err⟩ := rfl

theorem emitAll_collect (l : List Assessment) : emitAll collectCallback l = ⟨l, none⟩ := by
  induction l with
  | nil => rfl
  | cons a rest ih => simp [emitAll, emit, collectCallback, Run.seq, ih]

theorem mem_seq_delivered {a : Assessment} {r1 r2 : Run}
    (h : a ∈ (r1.seq r2).delivered) : a ∈ r1.delivered ∨ a ∈ r2.delivered := by
  unfold Run.seq at h
  split at h
  · exact Or.inl h
  · have h' : a ∈ r1.delivered ++ r2.delivered := h
    exact List.mem_append.mp h'

theorem mem_seq_left {a : Assessment} {r1 r2 : Run} (h : a ∈ r1.delivered) :
    a ∈ (r1.seq r2).delivered := by
  unfold Run.seq
  split
  · exact h
  · exact List.mem_append.mpr (Or.inl h)

theorem mem_tryCatch_delivered {a : Assessment} {r : Run} {handler : String → Run}
    (h : a ∈ (Run.tryCatch r handler).delivered) :
    a ∈ r.delivered ∨ ∃ e, a ∈ (handler e).delivered := by
  unfold Run.tryCatch at h
  split at h
  · exact Or.inl h
  · have h' : a ∈ r.delivered ++ _ := h
    rcases List.mem_append.mp h' with h1 | h2
    · exact Or.inl h1
    · exact Or.inr ⟨_, h2⟩

theorem mem_emit {a x : Assessment} {cb : Callback} (h : a ∈ (emit cb x).delivered) :
    a = x := by
  simpa [emit] using h

theorem mem_emitAll {a : Assessment} {cb : Callback} {l : List Assessment}
    (h : a ∈ (emitAll cb l).delivered) : a ∈ l := by
  induction l with
  | nil => simp [emitAll, Run.done] at h
  | cons x rest ih =>
    unfold emitAll at h
    rcases mem_seq_delivered h with h1 | h2
    · exact (mem_emit h1) ▸ List.mem_cons_self x rest
    · exact List.mem_cons_of_mem x (ih h2)

theorem mem_runAll {a : Assessment} {rs : List Run} (h : a ∈ (runAll rs).delivered) :
    ∃ r ∈ rs, a ∈ r.delivered := by
  induction rs with
  | nil => simp [runAll, Run.done] at h
  | cons r rest ih =>
    unfold runAll at h
    rcases mem_seq_delivered h with h1 | h2
    · exact ⟨r, List.mem_cons_self r rest, h1⟩
    · obtain ⟨r', hr', ha⟩ := ih h2
      exact ⟨r', List.mem_cons_of_mem r hr', ha⟩

/-! ## String inequality machinery -/

theorem strDataAppend (s t : String) : (s ++ t).data = s.data ++ t.data := rfl

theorem strNeOfTakeNe (p x q y : String) (n : Nat)
    (h1 : ¬ p.data.take n = q.data.take n)
    (h2 : n ≤ p.data.length) (h3 : n ≤ q.data.length) :
    ¬ (p ++ x = q ++ y) := by
  intro he
  apply h1
  have hd : p.data ++ x.data = q.data ++ y.data := by
    have hdd := congrArg String.data he
    simpa [strDataAppend] using hdd
  calc p.data.take n = (p.data ++ x.data).take n := (List.take_append_of_le_length h2).symm
    _ = (q.data ++ y.data).take n := by rw [hd]
    _ = q.data.take n := List.take_append_of_le_length h3

theorem strNeOfTakeNeConst (p x c : String) (n : Nat)
    (h1 : ¬ p.data.take n = c.data.take n)
    (h2 : n ≤ p.data.length) :
    ¬ (p ++ x = c) := by
  intro he
  apply h1
  have hd : p.data ++ x.data = c.data := by
    have hdd := congrArg String.data he
    simpa [strDataAppend] using hdd
  calc p.data.take n = (p.data ++ x.data).take n := (List.take_append_of_le_length h2).symm
    _ = c.data.take n := by rw [hd]

theorem digestCheck_ne_nsDigestsCheck (ns id ns' : String) :
    ¬ (digestCheck ns id = nsDigestsCheck ns') := by
  unfold digestCheck nsDigestsCheck
  exact strNeOfTakeNe _ _ _ _ 1 (by decide) (by decide) (by decide)

theorem digestCheck_ne_algCheck (ns id : String) : ¬ (digestCheck ns id = algCheck) := by
  unfold digestCheck
  exact strNeOfTakeNeConst _ _ _ 1 (by decide) (by decide)

theorem digestCheck_ne_countryCheck (ns id : String) : ¬ (digestCheck ns id = countryCheck) := by
  unfold digestCheck
  exact strNeOfTakeNeConst _ _ _ 5 (by decide) (by decide)

theorem digestCheck_ne_jurisdictionCheck (ns id : String) :
    ¬ (digestCheck ns id = jurisdictionCheck) := by
  unfold digestCheck
  exact strNeOfTakeNeConst _ _ _ 5 (by decide) (by decide)

theorem digestCheck_ne_certValidCheck (ns id : String) :
    ¬ (digestCheck ns id = certValidCheck) := by
  unfold digestCheck
  exact strNeOfTakeNeConst _ _ _ 1 (by decide) (by decide)

theorem nsDigestsCheck_ne_countryCheck (ns : String) :
    ¬ (nsDigestsCheck ns = countryCheck) := by
  unfold nsDigestsCheck
  exact strNeOfTakeNeConst _ _ _ 1 (by decide) (by decide)

theorem nsDigestsCheck_ne_certValidCheck (ns : String) :
    ¬ (nsDigestsCheck ns = certValidCheck) := by
  unfold nsDigestsCheck
  exact strNeOfTakeNeConst _ _ _ 8 (by decide) (by decide)

/-! ## Collect-mode characterization of verifyData -/

theorem mdlCrossChecks_collect (H : DigestFn) (ia : IssuerAuth) (ns : String)
    (items : List IssuerSignedItem) (c : Certificate) (hc : ia.certificate = some c) :
    mdlCrossChecks collectCallback ia (items.map (fun it => (it, it.isValid H ns ia)))
      = ⟨crossListI H ia ns items c, none⟩ := by
  unfold mdlCrossChecks crossListI
  rw [hc]
  by_cases hn : c.issuerName == ""
  · simp [hn, emit, collectCallback]
  · have hcy :
        ((items.map (fun it => (it, it.isValid H ns ia))).filter
            (fun v => v.1.elementIdentifier == "issuing_country")).find?
          (fun v => !v.2 || !matchCertificateB v.1 ia)
        = (invalidCountryI H ia ns items).map (fun it => (it, it.isValid H ns ia)) := by
      unfold invalidCountryI
      rw [List.filter_map, List.find?_map]
      rfl
    have hjy :
        ((items.map (fun it => (it, it.isValid H ns ia))).filter
            (fun v => v.1.elementIdentifier == "issuing_jurisdiction")).find?
          (fun v => !v.2 || (optStrTruthy ia.stateOrProvince && !matchCertificateB v.1 ia))
        = (invalidJurisdictionI H ia ns items).map (fun it => (it, it.isValid H ns ia)) := by
      unfold invalidJurisdictionI
      rw [List.filter_map, List.find?_map]
      rfl
    simp only [hn, if_false, hcy, hjy]
    cases invalidCountryI H ia ns items <;>
      cases invalidJurisdictionI H ia ns items <;>
        simp [emit, collectCallback, Run.seq]

theorem verifyDataNS_collect (H : DigestFn) (ia : IssuerAuth) (ns : String)
    (items : List IssuerSignedItem) (c : Certificate) (hc : ia.certificate = some c) :
    verifyDataNS collectCallback H ia ns items = ⟨nsBlock H ia ns items, none⟩ := by
  unfold verifyDataNS nsBlock
  have hp :
      ((items.map (fun it => (it, it.isValid H ns ia))).filter (fun v => v.2)).map
        (fun v => (⟨Status.PASSED, Category.DATA_INTEGRITY,
          digestCheck ns v.1.elementIdentifier, none⟩ : Assessment))
      = (items.filter (fun it => it.isValid H ns ia)).map (mkDigestA ns Status.PASSED) := by
    rw [List.filter_map, List.map_map]
    rfl
  have hf :
      ((items.map (fun it => (it, it.isValid H ns ia))).filter (fun v => !v.2)).map
        (fun v => (⟨Status.FAILED, Category.DATA_INTEGRITY,
          digestCheck ns v.1.elementIdentifier, none⟩ : Assessment))
      = (items.filter (fun it => !(it.isValid H ns ia))).map (mkDigestA ns Status.FAILED) := by
    rw [List.filter_map, List.map_map]
    rfl
  by_cases hm : ns == MDL_NAMESPACE
  · simp only [hm, if_true, hp, hf, mdlCrossChecks_collect H ia ns items c hc, hc,
      emit_collect, emitAll_collect, seq_ok]
    simp [Run.seq]
  · simp only [hm, if_false, hp, hf, emit_collect, emitAll_collect, seq_ok]
    simp [Run.seq, Run.done]

theorem verifyData_collect (H : DigestFn) (doc : Document) (c : Certificate)
    (hc : doc.issuerSigned.issuerAuth.certificate = some c) :
    verifyData collectCallback H doc = ⟨dataList H doc, none⟩ := by
  have hall : ∀ l : List (String × List IssuerSignedItem),
      runAll (l.map (fun p => verifyDataNS collectCallback H doc.issuerSigned.issuerAuth p.1 p.2))
        = ⟨(l.map (fun p => nsBlock H doc.issuerSigned.issuerAuth p.1 p.2)).flatten, none⟩ := by
    intro l
    induction l with
    | nil => rfl
    | cons p rest ih =>
      simp only [List.map_cons, runAll, ih,
        verifyDataNS_collect H doc.issuerSigned.issuerAuth p.1 p.2 c hc]
      simp [Run.seq]
  unfold verifyData dataList
  simp only [hall, emit_collect, seq_ok]
  simp

/-! ## Counting digest assessments in dataList -/

theorem filter_digestCheck_single (ns : String) (items : List IssuerSignedItem)
    (item : IssuerSignedItem)
    (hnd : (items.map (fun it => digestCheck ns it.elementIdentifier)).Nodup)
    (hmem : item ∈ items) :
    items.filter (fun it =>
        digestCheck ns it.elementIdentifier == digestCheck ns item.elementIdentifier)
      = [item] := by
  induction items with
  | nil => cases hmem
  | cons x rest ih =>
    simp only [List.map_cons, List.nodup_cons] at hnd
    rcases List.mem_cons.mp hmem with h | h
    · subst h
      have hrest : rest.filter (fun it =>
          digestCheck ns it.elementIdentifier == digestCheck ns item.elementIdentifier) = [] := by
        refine List.filter_eq_nil_iff.mpr ?_
        intro it hit hbeq
        exact hnd.1 (beq_iff_eq.mp hbeq ▸ List.mem_map_of_mem _ hit)
      simp [List.filter_cons, hrest]
    · have hx : ¬ (digestCheck ns x.elementIdentifier
          == digestCheck ns item.elementIdentifier) = true := by
        intro hbeq
        exact hnd.1 (beq_iff_eq.mp hbeq ▸ List.mem_map_of_mem _ h)
      simp only [List.filter_cons, hx, if_false]
      exact ih hnd.2 h

theorem crossListI_filter_notCountry (H : DigestFn) (ia : IssuerAuth) (ns : String)
    (items : List IssuerSignedItem) (c : Certificate) (p : Assessment → Bool)
    (hpc : ∀ st r, p ⟨st, Category.DATA_INTEGRITY, countryCheck, r⟩ = false)
    (hpj : ∀ st r, p ⟨st, Category.DATA_INTEGRITY, jurisdictionCheck, r⟩ = false) :
    (crossListI H ia ns items c).filter p = [] := by
  unfold crossListI
  split <;> simp [List.filter_cons, hpc, hpj]

/-- Filtering one namespace block for a fixed digest-assessment check. -/
theorem nsBlock_filter_digest (H : DigestFn) (ia : IssuerAuth) (ns' : String)
    (items' : List IssuerSignedItem) (ns id : String) :
    (nsBlock H ia ns' items').filter (fun a => a.check == digestCheck ns id)
    = ((items'.filter (fun it => it.isValid H ns' ia)).filter
        (fun it => digestCheck ns' it.elementIdentifier == digestCheck ns id)).map
        (mkDigestA ns' Status.PASSED)
      ++ ((items'.filter (fun it => !(it.isValid H ns' ia))).filter
          (fun it => digestCheck ns' it.elementIdentifier == digestCheck ns id)).map
          (mkDigestA ns' Status.FAILED) := by
  unfold nsBlock
  have hns : ((nsDigestsCheck ns' == digestCheck ns id) : Bool) = false := by
    refine beq_eq_false_iff_ne.mpr ?_
    intro he
    exact digestCheck_ne_nsDigestsCheck ns id ns' he.symm
  have hcross :
      ((if ns' == MDL_NAMESPACE then
          match ia.certificate with
          | some c => crossListI H ia ns' items' c
          | none => []
        else []) : List Assessment).filter (fun a => a.check == digestCheck ns id) = [] := by
    split
    · split
      · refine crossListI_filter_notCountry _ _ _ _ _ _ ?_ ?_
        · intro st r
          exact beq_eq_false_iff_ne.mpr (fun he => digestCheck_ne_countryCheck ns id he.symm)
        · intro st r
          exact beq_eq_false_iff_ne.mpr (fun he => digestCheck_ne_jurisdictionCheck ns id he.symm)
      · rfl
    · rfl
  simp only [List.filter_cons, hns, if_false, List.filter_append, hcross,
    List.append_nil, List.filter_map]
  rfl

theorem nsBlock_filter_digest_nil (H : DigestFn) (ia : IssuerAuth) (ns' : String)
    (items' : List IssuerSignedItem) (ns id : String)
    (h : ∀ it ∈ items', ¬ digestCheck ns' it.elementIdentifier = digestCheck ns id) :
    (nsBlock H ia ns' items').filter (fun a => a.check == digestCheck ns id) = [] := by
  rw [nsBlock_filter_digest]
  have h1 : ∀ (f : IssuerSignedItem → Bool),
      (items'.filter f).filter
        (fun it => digestCheck ns' it.elementIdentifier == digestCheck ns id) = [] := by
    intro f
    refine List.filter_eq_nil_iff.mpr ?_
    intro it hit hbeq
    exact h it (List.mem_of_mem_filter hit) (beq_iff_eq.mp hbeq)
  simp [h1]

theorem flatten_nsBlocks_filter_digest_nil (H : DigestFn) (ia : IssuerAuth)
    (l : List (String × List IssuerSignedItem)) (ns id : String)
    (h : ¬ digestCheck ns id ∈
      (l.map (fun p => p.2.map (fun it => digestCheck p.1 it.elementIdentifier))).flatten) :
    ((l.map (fun p => nsBlock H ia p.1 p.2)).flatten).filter
      (fun a => a.check == digestCheck ns id) = [] := by
  induction l with
  | nil => rfl
  | cons p rest ih =>
    simp only [List.map_cons, List.flatten_cons, List.mem_append] at h
    push_neg at h
    simp only [List.map_cons, List.flatten_cons]
    rw [List.filter_append, ih h.2, nsBlock_filter_digest_nil]
    · rfl
    · intro it hit he
      exact h.1 (he ▸ List.mem_map_of_mem _ hit)

theorem flatten_nsBlocks_filter_digest (H : DigestFn) (ia : IssuerAuth)
    (l : List (String × List IssuerSignedItem)) (ns : String)
    (items : List IssuerSignedItem) (item : IssuerSignedItem)
    (hnd : ((l.map (fun p =>
      p.2.map (fun it => digestCheck p.1 it.elementIdentifier))).flatten).Nodup)
    (h1 : (ns, items) ∈ l) (h2 : item ∈ items) :
    ((l.map (fun p => nsBlock H ia p.1 p.2)).flatten).filter
        (fun a => a.check == digestCheck ns item.elementIdentifier)
    = [mkDigestA ns
        (if item.isValid H ns ia then Status.PASSED else Status.FAILED) item] := by
  induction l with
  | nil => cases h1
  | cons p rest ih =>
    simp only [List.map_cons, List.flatten_cons] at hnd ⊢
    rw [List.nodup_append] at hnd
    obtain ⟨np, nrest, disj⟩ := hnd
    rw [List.filter_append]
    rcases List.mem_cons.mp h1 with hp | hp
    · cases hp.symm
      have hkey : items.filter (fun it =>
          digestCheck ns it.elementIdentifier == digestCheck ns item.elementIdentifier)
          = [item] := filter_digestCheck_single ns items item np h2
      have hcomm : ∀ f : IssuerSignedItem → Bool,
          (items.filter f).filter (fun it =>
            digestCheck ns it.elementIdentifier == digestCheck ns item.elementIdentifier)
          = [item].filter f := by
        intro f
        rw [List.filter_filter, ← hkey, List.filter_filter]
        exact List.filter_congr (fun a _ => Bool.and_comm _ _)
      have hrest : (rest.map (fun p => nsBlock H ia p.1 p.2)).flatten.filter
          (fun a => a.check == digestCheck ns item.elementIdentifier) = [] := by
        refine flatten_nsBlocks_filter_digest_nil H ia rest ns item.elementIdentifier ?_
        intro hmem
        exact disj (List.mem_map_of_mem _ h2) hmem
      rw [hrest, nsBlock_filter_digest, hcomm, hcomm]
      cases hv : item.isValid H ns ia <;> simp [List.filter_cons, hv]
    · have htarget : digestCheck ns item.elementIdentifier ∈
          (rest.map (fun p =>
            p.2.map (fun it => digestCheck p.1 it.elementIdentifier))).flatten := by
        refine List.mem_flatten.mpr
          ⟨items.map (fun it => digestCheck ns it.elementIdentifier), ?_, ?_⟩
        · exact List.mem_map_of_mem _ hp
        · exact List.mem_map_of_mem _ h2
      have hphead : (nsBlock H ia p.1 p.2).filter
          (fun a => a.check == digestCheck ns item.elementIdentifier) = [] := by
        refine nsBlock_filter_digest_nil H ia p.1 p.2 ns item.elementIdentifier ?_
        intro it hit he
        exact disj (he ▸ List.mem_map_of_mem _ hit) htarget
      rw [hphead, ih nrest hp]
      rfl

theorem isValid_eq_lookup (H : DigestFn) (item : IssuerSignedItem) (ns : String)
    (ia : IssuerAuth) :
    item.isValid H ns ia
      = (lookupDigest ia.decodedPayload ns item.digestID
          == some (H ia.decodedPayload.digestAlgorithm item.originalBytes)) := by
  unfold IssuerSignedItem.isValid
  cases h : lookupDigest ia.decodedPayload ns item.digestID with
  | none => simp
  | some d =>
    apply Bool.eq_iff_iff.mpr
    rw [beq_iff_eq, beq_iff_eq, Option.some.injEq]
    exact eq_comm

/-! ## Counting country assessments in dataList -/

theorem nsBlock_filter_country (H : DigestFn) (ia : IssuerAuth) (ns' : String)
    (items' : List IssuerSignedItem) (c : Certificate)
    (hc : ia.certificate = some c) (hn : ¬ c.issuerName = "") :
    (nsBlock H ia ns' items').filter (fun a => a.check == countryCheck)
      = if ns' == MDL_NAMESPACE then [countryAOf H ia items'] else [] := by
  unfold nsBlock
  have hns : ((nsDigestsCheck ns' == countryCheck) : Bool) = false :=
    beq_eq_false_iff_ne.mpr (nsDigestsCheck_ne_countryCheck ns')
  have hdig : ∀ (st : Status) (f : IssuerSignedItem → Bool),
      ((items'.filter f).map (mkDigestA ns' st)).filter
        (fun a => a.check == countryCheck) = [] := by
    intro st f
    rw [List.filter_map]
    have hfn : (items'.filter f).filter
        ((fun a => a.check == countryCheck) ∘ mkDigestA ns' st) = [] := by
      refine List.filter_eq_nil_iff.mpr ?_
      intro it _ hbeq
      exact digestCheck_ne_countryCheck ns' it.elementIdentifier (beq_iff_eq.mp hbeq)
    rw [hfn]
    rfl
  rw [List.filter_cons]
  simp only [hns, if_false]
  rw [List.filter_append, hdig, List.nil_append, List.filter_append, hdig, List.nil_append]
  by_cases hm : (ns' == MDL_NAMESPACE) = true
  · cases beq_iff_eq.mp hm
    rw [hc]
    simp only [hm, if_true]
    unfold crossListI countryAOf
    have hfalse : ((c.issuerName == "") : Bool) = false := beq_eq_false_iff_ne.mpr hn
    have hj : ((jurisdictionCheck == countryCheck) : Bool) = false := by decide
    simp [hfalse, List.filter_cons, hj]
  · have hm' : (ns' == MDL_NAMESPACE) = false := by
      cases hb : (ns' == MDL_NAMESPACE) with
      | true => exact absurd hb hm
      | false => rfl
    simp [hm']

theorem flatten_nsBlocks_filter_country (H : DigestFn) (ia : IssuerAuth)
    (l : List (String × List IssuerSignedItem)) (c : Certificate)
    (hc : ia.certificate = some c) (hn : ¬ c.issuerName = "") :
    ((l.map (fun p => nsBlock H ia p.1 p.2)).flatten).filter
        (fun a => a.check == countryCheck)
      = (l.filter (fun p => p.1 == MDL_NAMESPACE)).map (fun p => countryAOf H ia p.2) := by
  induction l with
  | nil => rfl
  | cons p rest ih =>
    simp only [List.map_cons, List.flatten_cons, List.filter_append, List.filter_cons]
    rw [nsBlock_filter_country H ia p.1 p.2 c hc hn, ih]
    by_cases hm : (p.1 == MDL_NAMESPACE) = true
    · simp [hm]
    · have hm' : (p.1 == MDL_NAMESPACE) = false := by
        cases hb : (p.1 == MDL_NAMESPACE) with
        | true => exact absurd hb hm
        | false => rfl
      simp [hm']

/-- C1: for every disclosed `IssuerSignedItem` of namespace `ns`, `verifyData`
emits exactly one DATA_INTEGRITY assessment whose check names `ns` and the
item's `elementIdentifier`, and its status is PASSED if and only if the digest
of the item's original encoded bytes under the MSO's `digestAlgorithm` equals
`valueDigests[ns][digestID]` (and FAILED otherwise).  The hypotheses ask for a
leaf certificate (the state in which `verify` reaches `verifyData`) and for
pairwise distinct digest-check texts, which rules out aliasing between
namespace/identifier pairs. -/
theorem C1_digest_binding (H : DigestFn) (doc : Document) (c : Certificate)
    (ns : String) (items : List IssuerSignedItem) (item : IssuerSignedItem)
    (hc : doc.issuerSigned.issuerAuth.certificate = some c)
    (h1 : (ns, items) ∈ doc.issuerSigned.nameSpaces)
    (h2 : item ∈ items)
    (hnd : (digestChecks doc).Nodup) :
    (verifyData collectCallback H doc).delivered.filter
        (fun a => a.check == digestCheck ns item.elementIdentifier)
      = [⟨if lookupDigest doc.issuerSigned.issuerAuth.decodedPayload ns item.digestID
            = some (H doc.issuerSigned.issuerAuth.decodedPayload.digestAlgorithm
                item.originalBytes)
          then Status.PASSED else Status.FAILED,
          Category.DATA_INTEGRITY, digestCheck ns item.elementIdentifier, none⟩] := by
  rw [verifyData_collect H doc c hc]
  show (dataList H doc).filter _ = _
  unfold dataList
  have halg : ((algCheck == digestCheck ns item.elementIdentifier) : Bool) = false :=
    beq_eq_false_iff_ne.mpr
      (fun he => digestCheck_ne_algCheck ns item.elementIdentifier he.symm)
  rw [List.filter_cons]
  simp only [halg, if_false]
  rw [flatten_nsBlocks_filter_digest H doc.issuerSigned.issuerAuth
    doc.issuerSigned.nameSpaces ns items item hnd h1 h2]
  unfold mkDigestA
  rw [isValid_eq_lookup]
  by_cases h : lookupDigest doc.issuerSigned.issuerAuth.decodedPayload ns item.digestID
      = some (H doc.issuerSigned.issuerAuth.decodedPayload.digestAlgorithm item.originalBytes)
  · simp [h]
  · simp [h, beq_eq_false_iff_ne.mpr h]

theorem mem_seq_right {a : Assessment} {r1 r2 : Run} (h1 : r1.err = none)
    (h : a ∈ r2.delivered) : a ∈ (r1.seq r2).delivered := by
  unfold Run.seq
  rw [h1]
  exact List.mem_append.mpr (Or.inr h)

theorem seq_err_eq (r1 r2 : Run) (h : r1.err = none) : (r1.seq r2).err = r2.err := by
  unfold Run.seq
  rw [h]

/-! ## Error behaviour of the phases under a collecting callback -/

theorem issuer_err_collect (disable : Bool) (ia : IssuerAuth) (now : Int)
    (c : Certificate) (hx : ia.certificate = some c) :
    (verifyIssuerSignature collectCallback disable ia now).err = none := by
  cases hl : ia.x5chain with
  | nil =>
    rw [IssuerAuth.certificate, hl] at hx
    cases hx
  | cons c0 tl =>
    unfold verifyIssuerSignature verifyX509Chain
    rw [hx, hl]
    cases disable <;> cases hce : ia.chainError <;>
      simp [Run.tryCatch, Run.seq, Run.done, emit, collectCallback]

theorem issuer_certNone_failed (disable : Bool) (ia : IssuerAuth) (now : Int)
    (hx : ia.certificate = none) :
    (⟨Status.FAILED, Category.ISSUER_AUTH, sigValidCheck, none⟩ : Assessment)
      ∈ (verifyIssuerSignature collectCallback disable ia now).delivered := by
  unfold verifyIssuerSignature
  rw [hx]
  apply mem_seq_right
  · cases disable with
    | true => rfl
    | false =>
      simp only [Bool.false_eq_true, if_false]
      cases hvc : verifyX509Chain ia <;>
        simp [Run.tryCatch, emit, collectCallback, hvc]
  · apply mem_seq_left
    simp [emit]

theorem device_err_collect (doc : Document) (eph st : Option (List Nat)) :
    (verifyDeviceSignature collectCallback doc eph st).err = none := by
  unfold verifyDeviceSignature
  cases hds : doc.deviceSigned with
  | none => rfl
  | some dsg =>
    simp only
    split
    · rfl
    split
    · rfl
    split
    · rfl
    split
    · rename_i ds _
      cases hv : ds.verifyResult <;>
        simp [Run.tryCatch, emit, collectCallback, hv]
    · cases hm : dsg.deviceAuth.deviceMac with
      | none => simp [hm, Run.seq, emit, collectCallback, Run.done]
      | some mac =>
        cases hs : hasSupportedAlg mac <;>
          cases he : eph <;>
            cases hv : mac.verifyResult <;>
              simp [hm, hs, he, hv, Run.seq, Run.tryCatch, emit, collectCallback, Run.done]

theorem data_err_collect (H : DigestFn) (doc : Document) (c : Certificate)
    (hc : doc.issuerSigned.issuerAuth.certificate = some c) :
    (verifyData collectCallback H doc).err = none := by
  rw [verifyData_collect H doc c hc]

theorem device_accept_shape (doc : Document) (eph st : Option (List Nat))
    (h : ∀ a ∈ (verifyDeviceSignature collectCallback doc eph st).delivered,
      ¬ a.status = Status.FAILED) :
    ∃ dsg, doc.deviceSigned = some dsg
      ∧ (dsg.deviceAuth.deviceSignature.isSome ∨ dsg.deviceAuth.deviceMac.isSome) := by
  cases hds : doc.deviceSigned with
  | none =>
    exfalso
    refine h ⟨Status.FAILED, Category.DEVICE_AUTH, notDeviceSignedCheck, none⟩ ?_ rfl
    unfold verifyDeviceSignature
    rw [hds]
    simp [emit]
  | some dsg =>
    refine ⟨dsg, rfl, ?_⟩
    by_cases hboth :
        (dsg.deviceAuth.deviceMac.isNone && dsg.deviceAuth.deviceSignature.isNone) = true
    · exfalso
      refine h ⟨Status.FAILED, Category.DEVICE_AUTH, deviceAuthPresenceCheck, none⟩ ?_ rfl
      unfold verifyDeviceSignature
      rw [hds]
      simp only [hboth, if_true]
      simp [emit]
    · cases hm : dsg.deviceAuth.deviceMac with
      | some _ => exact Or.inr (by simp [hm])
      | none =>
        cases hs : dsg.deviceAuth.deviceSignature with
        | some _ => exact Or.inl (by simp [hs])
        | none => exact absurd (by simp [hm, hs]) hboth

/-! ## Check universes of the verification phases -/

theorem issuer_checks_disable {a : Assessment} (cb : Callback) (ia : IssuerAuth)
    (now : Int)
    (h : a ∈ (verifyIssuerSignature cb true ia now).delivered) :
    a.check = sigValidCheck ∨ a.check = msoSignedCheck ∨ a.check = msoValidCheck
      ∨ a.check = countryPresentCheck := by
  unfold verifyIssuerSignature at h
  simp only [if_true, ite_true] at h
  rcases mem_seq_delivered h with h1 | h1
  · simp [Run.done] at h1
  · rcases mem_seq_delivered h1 with h2 | h2
    · exact Or.inl (by rw [mem_emit h2])
    · cases hx : ia.certificate with
      | none =>
        rw [hx] at h2
        simp at h2
      | some c =>
        rw [hx] at h2
        rcases mem_seq_delivered h2 with h3 | h3
        · exact Or.inr (Or.inl (by rw [mem_emit h3]))
        · rcases mem_seq_delivered h3 with h4 | h4
          · exact Or.inr (Or.inr (Or.inl (by rw [mem_emit h4])))
          · exact Or.inr (Or.inr (Or.inr (by rw [mem_emit h4])))

theorem device_checks {a : Assessment} (cb : Callback) (doc : Document)
    (eph st : Option (List Nat))
    (h : a ∈ (verifyDeviceSignature cb doc eph st).delivered) :
    a.check = notDeviceSignedCheck ∨ a.check = deviceAuthPresenceCheck
      ∨ a.check = transcriptMissingCheck ∨ a.check = deviceKeyCheck
      ∨ a.check = deviceSigCheck ∨ a.check = macPresentCheck
      ∨ a.check = macAlgCheck ∨ a.check = ephPresentCheck
      ∨ a.check = macValidCheck := by
  unfold verifyDeviceSignature at h
  cases hds : doc.deviceSigned with
  | none =>
    rw [hds] at h
    exact Or.inl (by rw [mem_emit h])
  | some dsg =>
    rw [hds] at h
    simp only at h
    split at h
    · exact Or.inr (Or.inl (by rw [mem_emit h]))
    · split at h
      · exact Or.inr (Or.inr (Or.inl (by rw [mem_emit h])))
      · split at h
        · exact Or.inr (Or.inr (Or.inr (Or.inl (by rw [mem_emit h]))))
        · split at h
          · rcases mem_tryCatch_delivered h with h1 | ⟨e, h1⟩
            · split at h1
              · simp at h1
              · exact Or.inr (Or.inr (Or.inr (Or.inr (Or.inl (by rw [mem_emit h1])))))
            · exact Or.inr (Or.inr (Or.inr (Or.inr (Or.inl (by rw [mem_emit h1])))))
          · rcases mem_seq_delivered h with h1 | h1
            · exact Or.inr (Or.inr (Or.inr (Or.inr (Or.inr (Or.inl
                (by rw [mem_emit h1]))))))
            · split at h1
              · simp [Run.done] at h1
              · rcases mem_seq_delivered h1 with h2 | h2
                · exact Or.inr (Or.inr (Or.inr (Or.inr (Or.inr (Or.inr (Or.inl
                    (by rw [mem_emit h2])))))))
                · split at h2
                  · simp [Run.done] at h2
                  · rcases mem_seq_delivered h2 with h3 | h3
                    · exact Or.inr (Or.inr (Or.inr (Or.inr (Or.inr (Or.inr (Or.inr
                        (Or.inl (by rw [mem_emit h3]))))))))
                    · split at h3
                      · simp [Run.done] at h3
                      · rcases mem_tryCatch_delivered h3 with h4 | ⟨e, h4⟩
                        · split at h4
                          · simp at h4
                          · exact Or.inr (Or.inr (Or.inr (Or.inr (Or.inr (Or.inr
                              (Or.inr (Or.inr (by rw [mem_emit h4]))))))))
                        · exact Or.inr (Or.inr (Or.inr (Or.inr (Or.inr (Or.inr
                            (Or.inr (Or.inr (by rw [mem_emit h4]))))))))

theorem data_checks {a : Assessment} (cb : Callback) (H : DigestFn) (doc : Document)
    (h : a ∈ (verifyData cb H doc).delivered) :
    a.check = algCheck ∨ (∃ ns, a.check = nsDigestsCheck ns)
      ∨ (∃ ns id, a.check = digestCheck ns id)
      ∨ a.check = countryCheck ∨ a.check = jurisdictionCheck := by
  unfold verifyData at h
  rcases mem_seq_delivered h with h1 | h1
  · exact Or.inl (by rw [mem_emit h1])
  · obtain ⟨r, hr, ha⟩ := mem_runAll h1
    obtain ⟨p, _, rfl⟩ := List.mem_map.mp hr
    unfold verifyDataNS at ha
    rcases mem_seq_delivered ha with hb | hb
    · exact Or.inr (Or.inl ⟨p.1, by rw [mem_emit hb]⟩)
    · rcases mem_seq_delivered hb with hc | hc
      · obtain ⟨v, _, rfl⟩ := List.mem_map.mp (mem_emitAll hc)
        exact Or.inr (Or.inr (Or.inl ⟨p.1, v.1.elementIdentifier, rfl⟩))
      · rcases mem_seq_delivered hc with hd | hd
        · obtain ⟨v, _, rfl⟩ := List.mem_map.mp (mem_emitAll hd)
          exact Or.inr (Or.inr (Or.inl ⟨p.1, v.1.elementIdentifier, rfl⟩))
        · split at hd
          · unfold mdlCrossChecks at hd
            split at hd
            · simp at hd
            · split at hd
              · exact Or.inr (Or.inr (Or.inr (Or.inl (by rw [mem_emit hd]))))
              · rcases mem_seq_delivered hd with he | he
                · exact Or.inr (Or.inr (Or.inr (Or.inl (by rw [mem_emit he]))))
                · exact Or.inr (Or.inr (Or.inr (Or.inr (by rw [mem_emit he]))))
          · simp [Run.done] at hd

/-- C2 (counterexample): a response whose single document's deviceAuth
carries BOTH deviceSignature and deviceMac is fully accepted by verify (no
FAILED assessment anywhere), so "exactly one of deviceSignature and
deviceMac" does not hold for accepted documents and no both-present
DEVICE_AUTH FAILED assessment exists. -/
theorem C2_counterexample :
    ((verify collectCallback exH 20 ⟨"1.0", [exDocBoth], 0⟩ exOpts).delivered.all
        (fun a => !(a.status == Status.FAILED))) = true
    ∧ (exDocBoth.deviceSigned.map (fun dsg =>
        dsg.deviceAuth.deviceSignature.isSome && dsg.deviceAuth.deviceMac.isSome))
        = some true
    ∧ (exDocBoth.deviceSigned.map (fun dsg : DeviceSigned =>
        Bool.xor dsg.deviceAuth.deviceSignature.isSome dsg.deviceAuth.deviceMac.isSome))
        = some false :=
  ⟨by decide, rfl, rfl⟩

/-- C2 (amended): every document accepted by verify (no FAILED assessment in
the collected stream) is a DeviceSignedDocument whose deviceAuth carries at
least one of deviceSignature and deviceMac; when both are present the
deviceSignature path is taken and no both-present failure is reported. -/
theorem C2_device_auth_presence (H : DigestFn) (now : Int) (dr : DeviceResponse)
    (opts : VerifyOptions)
    (h : ∀ a ∈ (verify collectCallback H now dr opts).delivered,
      ¬ a.status = Status.FAILED) :
    ∀ doc ∈ dr.documents, ∃ dsg, doc.deviceSigned = some dsg
      ∧ (dsg.deviceAuth.deviceSignature.isSome ∨ dsg.deviceAuth.deviceMac.isSome) := by
  have main : ∀ docs : List Document,
      (∀ a ∈ (runAll (docs.map (verifyDocument collectCallback H now opts))).delivered,
        ¬ a.status = Status.FAILED) →
      ∀ doc ∈ docs, ∃ dsg, doc.deviceSigned = some dsg
        ∧ (dsg.deviceAuth.deviceSignature.isSome ∨ dsg.deviceAuth.deviceMac.isSome) := by
    intro docs
    induction docs with
    | nil =>
      intro _ doc hd
      cases hd
    | cons d rest ih =>
      intro hdocs doc hd
      cases hcert : d.issuerSigned.issuerAuth.certificate with
      | none =>
        exfalso
        refine hdocs ⟨Status.FAILED, Category.ISSUER_AUTH, sigValidCheck, none⟩ ?_ rfl
        rw [List.map_cons, runAll_cons]
        apply mem_seq_left
        unfold verifyDocument
        apply mem_seq_left
        exact issuer_certNone_failed _ _ now hcert
      | some c =>
        have hierr := issuer_err_collect opts.disableCertificateChainValidation
          d.issuerSigned.issuerAuth now c hcert
        have herr : (verifyDocument collectCallback H now opts d).err = none := by
          unfold verifyDocument
          rw [seq_err_eq _ _ hierr,
            seq_err_eq _ _ (device_err_collect d opts.ephemeralReaderKey
              opts.encodedSessionTranscript)]
          exact data_err_collect H d c hcert
        rcases List.mem_cons.mp hd with rfl | hd'
        · refine device_accept_shape doc opts.ephemeralReaderKey
            opts.encodedSessionTranscript ?_
          intro a ha
          refine hdocs a ?_
          rw [List.map_cons, runAll_cons]
          apply mem_seq_left
          unfold verifyDocument
          exact mem_seq_right hierr (mem_seq_left ha)
        · refine ih ?_ doc hd'
          intro a ha
          refine hdocs a ?_
          rw [List.map_cons, runAll_cons]
          exact mem_seq_right herr ha
  refine main dr.documents ?_
  intro a ha
  refine h a ?_
  unfold verify
  exact mem_seq_right rfl (mem_seq_right rfl (mem_seq_right rfl ha))

theorem C2_device_auth_presence_witness :
    (exDocBoth.deviceSigned.map (fun dsg =>
      dsg.deviceAuth.deviceSignature.isSome || dsg.deviceAuth.deviceMac.isSome))
      = some true := by
  obtain ⟨dsg, hd, hor⟩ := C2_device_auth_presence exH 20 ⟨"1.0", [exDocBoth], 0⟩ exOpts
    (by decide) exDocBoth (by decide)
  rw [hd]
  rcases hor with h | h <;> simp [h]

/-- C3 (counterexample): an issuerAuth with no leaf certificate makes
`verifyIssuerSignature` throw a TypeError while building the reason of the
signed-date assessment, so the MSO-validity assessment is never emitted —
refuting "for every document ... exactly one assessment with check
msoValidCheck". -/
theorem C3_mso_validity_counterexample :
    (verifyIssuerSignature collectCallback false exIAnoCert 0).delivered.filter
        (fun a => a.check == msoValidCheck) = [] := by decide

/-- C3 (amended): for every document whose issuerAuth carries a leaf
certificate, `verifyIssuerSignature` emits exactly one ISSUER_AUTH assessment
with check msoValidCheck, and its status is FAILED if and only if the
current time lies outside the interval from `validityInfo.validFrom` to
`validityInfo.validUntil`. -/
theorem C3_mso_validity (disable : Bool) (ia : IssuerAuth) (now : Int)
    (c : Certificate) (hc : ia.certificate = some c) :
    (verifyIssuerSignature collectCallback disable ia now).delivered.filter
        (fun a => a.check == msoValidCheck)
      = [⟨if now < ia.decodedPayload.validityInfo.validFrom
            ∨ now > ia.decodedPayload.validityInfo.validUntil
          then Status.FAILED else Status.PASSED,
          Category.ISSUER_AUTH, msoValidCheck, some (msoValidReason now)⟩] := by
  cases hx : ia.x5chain with
  | nil =>
    rw [IssuerAuth.certificate, hx] at hc
    cases hc
  | cons c0 tl =>
    have hc0 : c0 = c := by
      rw [IssuerAuth.certificate, hx] at hc
      exact Option.some.inj hc
    subst hc0
    have h1 : ((certValidCheck == msoValidCheck) : Bool) = false := by decide
    have h2 : ((sigValidCheck == msoValidCheck) : Bool) = false := by decide
    have h3 : ((msoSignedCheck == msoValidCheck) : Bool) = false := by decide
    have h4 : ((countryPresentCheck == msoValidCheck) : Bool) = false := by decide
    unfold verifyIssuerSignature verifyX509Chain
    rw [hc, hx]
    cases disable <;> cases hce : ia.chainError <;>
      simp [Run.tryCatch, Run.seq, Run.done, emit, collectCallback,
        List.filter_cons, List.filter_append, h1, h2, h3, h4]

theorem C3_mso_validity_witness :
    (verifyIssuerSignature collectCallback false exIA 60).delivered.filter
        (fun a => a.check == msoValidCheck)
      = [⟨if (60 : Int) < exIA.decodedPayload.validityInfo.validFrom
            ∨ (60 : Int) > exIA.decodedPayload.validityInfo.validUntil
          then Status.FAILED else Status.PASSED,
          Category.ISSUER_AUTH, msoValidCheck, some (msoValidReason 60)⟩] :=
  C3_mso_validity false exIA 60 exCert rfl

/-- C5: for every document whose issuerAuth has no leaf certificate (empty
x5chain), the issuer-auth phase of `verify` (with chain validation enabled,
the default) emits an ISSUER_AUTH assessment with status FAILED and check
"Issuer certificate must be valid". -/
theorem C5_missing_certificate (ia : IssuerAuth) (now : Int)
    (h : ia.x5chain = []) :
    (verifyIssuerSignature collectCallback false ia now).delivered.filter
        (fun a => a.check == certValidCheck)
      = [⟨Status.FAILED, Category.ISSUER_AUTH, certValidCheck,
          some "No x5chain element found in the issuerAuth"⟩] := by
  have hcert : ia.certificate = none := by
    rw [IssuerAuth.certificate, h]
    rfl
  have h1 : ((sigValidCheck == certValidCheck) : Bool) = false := by decide
  unfold verifyIssuerSignature verifyX509Chain
  rw [hcert, h]
  simp [Run.tryCatch, Run.seq, emit, collectCallback, List.filter_cons, h1]

theorem C5_missing_certificate_witness :
    (verifyIssuerSignature collectCallback false exIAnoCert 0).delivered.filter
        (fun a => a.check == certValidCheck)
      = [⟨Status.FAILED, Category.ISSUER_AUTH, certValidCheck,
          some "No x5chain element found in the issuerAuth"⟩] :=
  C5_missing_certificate exIAnoCert 0 rfl

/-- C6: on the MAC authentication path (deviceMac present, no
deviceSignature, session transcript and device key present): if the MAC
algorithm is 5 and the caller omits the ephemeral reader key, the run ends
with a FAILED assessment naming the missing ephemeral private key and never
attempts MAC tag verification; if the algorithm is not 5, the run ends with
the FAILED unsupported-algorithm assessment. -/
theorem C6_mac_path (doc : Document) (dsg : DeviceSigned) (mac : DeviceMac)
    (k : CoseKey) (stb : List Nat)
    (hds : doc.deviceSigned = some dsg)
    (hsig : dsg.deviceAuth.deviceSignature = none)
    (hmac : dsg.deviceAuth.deviceMac = some mac)
    (hkey : doc.issuerSigned.issuerAuth.decodedPayload.deviceKeyInfo.bind
      DeviceKeyInfo.deviceKey = some k) :
    (mac.alg = 5 →
      verifyDeviceSignature collectCallback doc none (some stb)
        = ⟨[⟨Status.PASSED, Category.DEVICE_AUTH, macPresentCheck, none⟩,
            ⟨Status.PASSED, Category.DEVICE_AUTH, macAlgCheck, none⟩,
            ⟨Status.FAILED, Category.DEVICE_AUTH, ephPresentCheck, none⟩], none⟩)
    ∧ (¬ mac.alg = 5 → ∀ eph : Option (List Nat),
      verifyDeviceSignature collectCallback doc eph (some stb)
        = ⟨[⟨Status.PASSED, Category.DEVICE_AUTH, macPresentCheck, none⟩,
            ⟨Status.FAILED, Category.DEVICE_AUTH, macAlgCheck, none⟩], none⟩) := by
  constructor
  · intro h5
    have hbeq : ((mac.alg == 5) : Bool) = true := beq_iff_eq.mpr h5
    simp [verifyDeviceSignature, hds, hsig, hmac, hkey, hasSupportedAlg, hbeq,
      emit, collectCallback, Run.seq, Run.done]
  · intro h5 eph
    have hbeq : ((mac.alg == 5) : Bool) = false := beq_eq_false_iff_ne.mpr h5
    simp [verifyDeviceSignature, hds, hsig, hmac, hkey, hasSupportedAlg, hbeq,
      emit, collectCallback, Run.seq, Run.done]

theorem C6_mac_path_witness :
    verifyDeviceSignature collectCallback exDocMac none (some [1])
      = ⟨[⟨Status.PASSED, Category.DEVICE_AUTH, macPresentCheck, none⟩,
          ⟨Status.PASSED, Category.DEVICE_AUTH, macAlgCheck, none⟩,
          ⟨Status.FAILED, Category.DEVICE_AUTH, ephPresentCheck, none⟩], none⟩ :=
  (C6_mac_path exDocMac ⟨[], ⟨none, some exMacOk⟩⟩ exMacOk ⟨[1]⟩ [1]
    rfl rfl rfl rfl).1 rfl

/-- C4 (counterexample): under the default callback, a document whose device
MAC verifies to false delivers a first FAILED assessment with check
"Device MAC must be valid" and no reason, but the MDLError that escapes
`verify` carries the wrapped message "Unable to verify deviceAuth MAC:
Device MAC must be valid" — not the first FAILED assessment's reason ??
check. -/
theorem C4_counterexample :
    (verify defaultCallback exH 20 ⟨"1.0", [exDocMacBad], 0⟩ exOpts).err
      = some "Unable to verify deviceAuth MAC: Device MAC must be valid"
    ∧ ((verify defaultCallback exH 20 ⟨"1.0", [exDocMacBad], 0⟩ exOpts).delivered.find?
        (fun a => a.status == Status.FAILED))
      = some ⟨Status.FAILED, Category.DEVICE_AUTH, macValidCheck, none⟩
    ∧ ¬ ("Unable to verify deviceAuth MAC: Device MAC must be valid" = macValidCheck) :=
  ⟨by decide, by decide, by decide⟩

/-- C4 (amended): the default callback raises nothing on PASSED or WARNING
and raises MDLError(reason ?? check) on FAILED; `buildCallback` installs it
when the caller supplies no callback; over any plain emission chain the
escaping message is the first FAILED assessment's reason ?? check; a
collecting user callback receives every assessment and raises nothing; but
when the first FAILED assessment arises inside the device-MAC try block, the
MDLError is caught there and re-raised with the wrapped message "Unable to
verify deviceAuth MAC: ..." (likewise for the device-signature try block). -/
theorem C4_callback_behaviour :
    (∀ a : Assessment, ¬ a.status = Status.FAILED → defaultCallback a = none)
    ∧ (∀ a : Assessment, a.status = Status.FAILED →
        defaultCallback a = some (a.reason.getD a.check))
    ∧ buildCallback none = defaultCallback
    ∧ (∀ l : List Assessment, (emitAll defaultCallback l).err
        = (l.find? (fun a => a.status == Status.FAILED)).map
            (fun a => a.reason.getD a.check))
    ∧ (∀ l : List Assessment, emitAll collectCallback l = ⟨l, none⟩)
    ∧ (∀ (doc : Document) (dsg : DeviceSigned) (mac : DeviceMac) (k : CoseKey)
         (stb eph : List Nat),
        doc.deviceSigned = some dsg →
        dsg.deviceAuth.deviceSignature = none →
        dsg.deviceAuth.deviceMac = some mac →
        mac.alg = 5 →
        mac.verifyResult = Except.ok false →
        doc.issuerSigned.issuerAuth.decodedPayload.deviceKeyInfo.bind
          DeviceKeyInfo.deviceKey = some k →
        (verifyDeviceSignature defaultCallback doc (some eph) (some stb)).err
          = some ("Unable to verify deviceAuth MAC: " ++ macValidCheck)) := by
  refine ⟨?_, ?_, rfl, ?_, emitAll_collect, ?_⟩
  · intro a h
    simp [defaultCallback, h]
  · intro a h
    simp [defaultCallback, h]
  · intro l
    induction l with
    | nil => rfl
    | cons a rest ih =>
      cases hst : a.status with
      | PASSED =>
        have hb : ((Status.PASSED == Status.FAILED) : Bool) = false := rfl
        simp [emitAll, emit, defaultCallback, Run.seq, List.find?, hst, ih, hb]
      | WARNING =>
        have hb : ((Status.WARNING == Status.FAILED) : Bool) = false := rfl
        simp [emitAll, emit, defaultCallback, Run.seq, List.find?, hst, ih, hb]
      | FAILED =>
        simp [emitAll, emit, defaultCallback, Run.seq, List.find?, hst, ih]
  · intro doc dsg mac k stb eph hds hsig hmac h5 hv hkey
    have hbeq : ((mac.alg == 5) : Bool) = true := beq_iff_eq.mpr h5
    simp [verifyDeviceSignature, hds, hsig, hmac, hkey, hasSupportedAlg, hbeq, hv,
      emit, defaultCallback, Run.seq, Run.tryCatch]

theorem C4_callback_behaviour_witness :
    defaultCallback ⟨Status.PASSED, Category.DEVICE_AUTH, macValidCheck, none⟩ = none
    ∧ defaultCallback ⟨Status.FAILED, Category.DEVICE_AUTH, macValidCheck, none⟩
        = some macValidCheck
    ∧ (verifyDeviceSignature defaultCallback exDocMacBad (some [2]) (some [1])).err
        = some ("Unable to verify deviceAuth MAC: " ++ macValidCheck) :=
  ⟨C4_callback_behaviour.1 ⟨Status.PASSED, Category.DEVICE_AUTH, macValidCheck, none⟩
      (by decide),
   C4_callback_behaviour.2.1 ⟨Status.FAILED, Category.DEVICE_AUTH, macValidCheck, none⟩
      rfl,
   C4_callback_behaviour.2.2.2.2.2 exDocMacBad ⟨[], ⟨none, some exMacBad⟩⟩ exMacBad
      ⟨[1]⟩ [1] [2] rfl rfl rfl rfl rfl rfl⟩

/-- C10: `MDoc.addDocument` throws "Cannot add an unsigned document" and
leaves the container unchanged when the argument has no issuerSigned;
otherwise it appends exactly that document while leaving version, status and
documentErrors unchanged — so documents added through addDocument always
carry a defined issuerSigned. -/
theorem C10_addDocument (m : MDoc) (d : MDocDocument) :
    (d.issuerSigned = none →
      MDoc.addDocument m d = (m, some "Cannot add an unsigned document"))
    ∧ (∀ isd, d.issuerSigned = some isd →
      MDoc.addDocument m d = ({ m with documents := m.documents ++ [d] }, none))
    ∧ ((∀ x ∈ m.documents, x.issuerSigned.isSome = true) →
        ∀ x ∈ (MDoc.addDocument m d).1.documents, x.issuerSigned.isSome = true) := by
  refine ⟨?_, ?_, ?_⟩
  · intro h
    simp [MDoc.addDocument, h]
  · intro isd h
    simp [MDoc.addDocument, h]
  · intro hall x hx
    cases hd : d.issuerSigned with
    | none =>
      rw [(by simp [MDoc.addDocument, hd] :
        MDoc.addDocument m d = (m, some "Cannot add an unsigned document"))] at hx
      exact hall x hx
    | some isd =>
      rw [(by simp [MDoc.addDocument, hd] :
        MDoc.addDocument m d = ({ m with documents := m.documents ++ [d] }, none))] at hx
      rcases List.mem_append.mp hx with h1 | h1
      · exact hall x h1
      · cases List.mem_singleton.mp h1
        simp [hd]

theorem C10_addDocument_witness :
    MDoc.addDocument {} ⟨"org.iso.18013.5.1.mDL", none⟩
      = ({}, some "Cannot add an unsigned document")
    ∧ MDoc.addDocument {} ⟨"org.iso.18013.5.1.mDL", some exIS⟩
      = ({ documents := [⟨"org.iso.18013.5.1.mDL", some exIS⟩] }, none) :=
  ⟨(C10_addDocument {} ⟨"org.iso.18013.5.1.mDL", none⟩).1 rfl,
   (C10_addDocument {} ⟨"org.iso.18013.5.1.mDL", some exIS⟩).2.1 exIS rfl⟩

/-- C9: `getDiagnosticInformation` derives the per-document parts of its
report solely from the first document of the decoded response: two responses
sharing version, status and first document yield identical validityInfo,
issuerCertificate, issuerSignature alg and digest counts, deviceKey,
deviceSignature alg, dataIntegrity disclosed-attributes counter, attributes
and deviceAttributes, whatever the documents after the first are; only the
aggregated isValid flags and failure reasons draw on the remaining
documents' assessments. -/
theorem C9_first_document_report (H : DigestFn) (now : Int) (v : String) (s : Nat)
    (d : Document) (rest rest' : List Document) (opts : VerifyOptions)
    (r1 r2 : DiagnosticReport)
    (h1 : getDiagnosticInformation H now ⟨v, d :: rest, s⟩ opts = Except.ok r1)
    (h2 : getDiagnosticInformation H now ⟨v, d :: rest', s⟩ opts = Except.ok r2) :
    r1.validityInfo = r2.validityInfo
    ∧ r1.issuerCertificate = r2.issuerCertificate
    ∧ r1.issuerSignature.alg = r2.issuerSignature.alg
    ∧ r1.issuerSignature.digests = r2.issuerSignature.digests
    ∧ r1.deviceKey = r2.deviceKey
    ∧ r1.deviceSignature.map (fun x => x.alg) = r2.deviceSignature.map (fun x => x.alg)
    ∧ r1.dataIntegrity.disclosedAttributes = r2.dataIntegrity.disclosedAttributes
    ∧ r1.attributes = r2.attributes
    ∧ r1.deviceAttributes = r2.deviceAttributes := by
  cases he1 : (verify collectCallback H now ⟨v, d :: rest, s⟩ opts).err with
  | some e =>
    simp only [getDiagnosticInformation, he1] at h1
    exact Except.noConfusion h1
  | none =>
    cases he2 : (verify collectCallback H now ⟨v, d :: rest', s⟩ opts).err with
    | some e =>
      simp only [getDiagnosticInformation, he2] at h2
      exact Except.noConfusion h2
    | none =>
      simp only [getDiagnosticInformation, he1, Except.ok.injEq] at h1
      simp only [getDiagnosticInformation, he2, Except.ok.injEq] at h2
      subst h1
      subst h2
      refine ⟨rfl, rfl, rfl, rfl, rfl, ?_, rfl, rfl, rfl⟩
      cases d.deviceSigned <;> rfl

theorem C9_first_document_report_witness :
    (getDiagnosticInformation exH 20 ⟨"1.0", [exDocBoth], 0⟩ exOpts).map
        (fun r => r.validityInfo)
      = (getDiagnosticInformation exH 20 ⟨"1.0", [exDocBoth, exDocMac], 0⟩ exOpts).map
        (fun r => r.validityInfo) := by
  cases hr1 : getDiagnosticInformation exH 20 ⟨"1.0", [exDocBoth], 0⟩ exOpts with
  | error e =>
    have hok : (getDiagnosticInformation exH 20 ⟨"1.0", [exDocBoth], 0⟩ exOpts).isOk
        = true := by decide
    rw [hr1] at hok
    simp [Except.isOk, Except.toBool] at hok
  | ok r1 =>
    cases hr2 : getDiagnosticInformation exH 20 ⟨"1.0", [exDocBoth, exDocMac], 0⟩ exOpts with
    | error e =>
      have hok : (getDiagnosticInformation exH 20
          ⟨"1.0", [exDocBoth, exDocMac], 0⟩ exOpts).isOk = true := by decide
      rw [hr2] at hok
      simp [Except.isOk, Except.toBool] at hok
    | ok r2 =>
      obtain ⟨hv, _⟩ := C9_first_document_report exH 20 "1.0" 0 exDocBoth [] [exDocMac]
        exOpts r1 r2 hr1 hr2
      simp [Except.map, hv]

/-- C7: in namespace `org.iso.18013.5.1`, when the disclosed
`issuing_country` element's value differs from the `countryName` in the
issuer leaf certificate's subject, `verifyData` emits the DATA_INTEGRITY
country assessment with status FAILED and a reason pairing the disclosed
value with the certificate's `countryName`; when they are equal and the
element's digest is valid, that assessment is PASSED. -/
theorem C7_issuing_country (H : DigestFn) (doc : Document) (c : Certificate)
    (cn : String) (items : List IssuerSignedItem) (item : IssuerSignedItem)
    (hc : doc.issuerSigned.issuerAuth.certificate = some c)
    (hn : ¬ c.issuerName = "")
    (hcn : c.countryName = some cn)
    (hMDL : doc.issuerSigned.nameSpaces.filter (fun p => p.1 == MDL_NAMESPACE)
      = [(MDL_NAMESPACE, items)])
    (hitem : items.filter (fun it => it.elementIdentifier == "issuing_country") = [item]) :
    (item.elementValue ≠ cn →
      (verifyData collectCallback H doc).delivered.filter
          (fun a => a.check == countryCheck)
        = [⟨Status.FAILED, Category.DATA_INTEGRITY, countryCheck,
            some (countryReason item.elementValue cn)⟩])
    ∧ (item.elementValue = cn →
       item.isValid H MDL_NAMESPACE doc.issuerSigned.issuerAuth = true →
      (verifyData collectCallback H doc).delivered.filter
          (fun a => a.check == countryCheck)
        = [⟨Status.PASSED, Category.DATA_INTEGRITY, countryCheck, none⟩]) := by
  have hcountry : doc.issuerSigned.issuerAuth.countryName = some cn := by
    unfold IssuerAuth.countryName
    rw [hc]
    simpa using hcn
  have hid : item.elementIdentifier = "issuing_country" := by
    have hmem : item ∈ items.filter
        (fun it => it.elementIdentifier == "issuing_country") := by
      rw [hitem]
      exact List.mem_singleton.mpr rfl
    exact beq_iff_eq.mp (List.mem_filter.mp hmem).2
  have hbase : (verifyData collectCallback H doc).delivered.filter
      (fun a => a.check == countryCheck)
      = [countryAOf H doc.issuerSigned.issuerAuth items] := by
    rw [verifyData_collect H doc c hc]
    show (dataList H doc).filter _ = _
    unfold dataList
    have halg : ((algCheck == countryCheck) : Bool) = false := by decide
    rw [List.filter_cons]
    simp only [halg, if_false]
    rw [flatten_nsBlocks_filter_country H doc.issuerSigned.issuerAuth
      doc.issuerSigned.nameSpaces c hc hn, hMDL]
    rfl
  have hinv : invalidCountryI H doc.issuerSigned.issuerAuth MDL_NAMESPACE items
      = if (!(item.isValid H MDL_NAMESPACE doc.issuerSigned.issuerAuth)
            || !matchCertificateB item doc.issuerSigned.issuerAuth)
        then some item else none := by
    unfold invalidCountryI
    rw [hitem]
    cases hb : (!(item.isValid H MDL_NAMESPACE doc.issuerSigned.issuerAuth)
        || !matchCertificateB item doc.issuerSigned.issuerAuth) <;>
      simp [List.find?, hb]
  constructor
  · intro hne
    have hmatch : matchCertificateB item doc.issuerSigned.issuerAuth = false := by
      unfold matchCertificateB matchCertificate?
      rw [hid, hcountry]
      have : ((some cn == some item.elementValue) : Bool) = false := by
        refine beq_eq_false_iff_ne.mpr ?_
        intro hsome
        exact hne (Option.some.inj hsome).symm
      simp [this]
    have hinvx : invalidCountryI H doc.issuerSigned.issuerAuth MDL_NAMESPACE items
        = some item := by
      rw [hinv, hmatch]
      simp
    rw [hbase]
    unfold countryAOf
    rw [hinvx, hcountry]
    simp [optStrRender]
  · intro heq hvalid
    have hmatch : matchCertificateB item doc.issuerSigned.issuerAuth = true := by
      unfold matchCertificateB matchCertificate?
      rw [hid, hcountry, heq]
      simp
    have hinvx : invalidCountryI H doc.issuerSigned.issuerAuth MDL_NAMESPACE items
        = none := by
      rw [hinv, hmatch, hvalid]
      simp
    rw [hbase]
    unfold countryAOf
    rw [hinvx]
    simp

theorem C7_issuing_country_witness :
    (verifyData collectCallback exH exDocFull).delivered.filter
        (fun a => a.check == countryCheck)
      = [⟨Status.PASSED, Category.DATA_INTEGRITY, countryCheck, none⟩] :=
  (C7_issuing_country exH exDocFull exCert "US" [exCountryItem, exNameItem]
    exCountryItem rfl (by decide) rfl (by decide) (by decide)).2 rfl (by decide)

/-- C8: when `options.disableCertificateChainValidation` is true, `verify`
emits no "Issuer certificate must be valid" assessment (the X.509 chain
validation is skipped), but the issuer-auth phase still emits exactly one
"Issuer signature must be valid" ISSUER_AUTH assessment, whose status is
PASSED exactly when a leaf certificate exists and the COSE_Sign1 signature
over the MSO verifies — i.e. the signature is checked regardless of the
option. -/
theorem C8_disable_chain_validation :
    (∀ (cb : Callback) (H : DigestFn) (now : Int) (dr : DeviceResponse)
       (st eph : Option (List Nat)) (a : Assessment),
      a ∈ (verify cb H now dr ⟨st, eph, true⟩).delivered →
        ¬ a.check = certValidCheck)
    ∧ (∀ (ia : IssuerAuth) (now : Int),
      (verifyIssuerSignature collectCallback true ia now).delivered.filter
          (fun a => a.check == sigValidCheck)
        = [⟨if ia.certificate.isSome && ia.signatureValid then Status.PASSED
            else Status.FAILED, Category.ISSUER_AUTH, sigValidCheck, none⟩]) := by
  constructor
  · intro cb H now dr st eph a h hcert
    unfold verify at h
    rcases mem_seq_delivered h with h1 | h1
    · have hch : a.check = versionPresentCheck := by rw [mem_emit h1]
      rw [hch] at hcert
      exact absurd hcert (by decide)
    rcases mem_seq_delivered h1 with h2 | h2
    · have hch : a.check = versionGECheck := by rw [mem_emit h2]
      rw [hch] at hcert
      exact absurd hcert (by decide)
    rcases mem_seq_delivered h2 with h3 | h3
    · have hch : a.check = docsPresentCheck := by rw [mem_emit h3]
      rw [hch] at hcert
      exact absurd hcert (by decide)
    obtain ⟨r, hr, ha⟩ := mem_runAll h3
    obtain ⟨doc, _, rfl⟩ := List.mem_map.mp hr
    unfold verifyDocument at ha
    rcases mem_seq_delivered ha with hb | hb
    · rcases issuer_checks_disable cb _ now hb with h' | h' | h' | h' <;>
        (rw [h'] at hcert; exact absurd hcert (by decide))
    · rcases mem_seq_delivered hb with hc | hc
      · rcases device_checks cb doc _ _ hc with h'|h'|h'|h'|h'|h'|h'|h'|h' <;>
          (rw [h'] at hcert; exact absurd hcert (by decide))
      · rcases data_checks cb H doc hc with h' | ⟨ns, h'⟩ | ⟨ns, id, h'⟩ | h' | h'
        · rw [h'] at hcert
          exact absurd hcert (by decide)
        · rw [h'] at hcert
          exact nsDigestsCheck_ne_certValidCheck ns hcert
        · rw [h'] at hcert
          exact digestCheck_ne_certValidCheck ns id hcert
        · rw [h'] at hcert
          exact absurd hcert (by decide)
        · rw [h'] at hcert
          exact absurd hcert (by decide)
  · intro ia now
    have h2 : ((msoSignedCheck == sigValidCheck) : Bool) = false := by decide
    have h3 : ((msoValidCheck == sigValidCheck) : Bool) = false := by decide
    have h4 : ((countryPresentCheck == sigValidCheck) : Bool) = false := by decide
    unfold verifyIssuerSignature
    cases hx : ia.certificate <;>
      simp [hx, Run.seq, Run.done, emit, collectCallback, List.filter_cons, h2, h3, h4]

theorem C8_disable_chain_validation_witness :
    (¬ (⟨Status.PASSED, Category.ISSUER_AUTH, sigValidCheck, none⟩ : Assessment).check
        = certValidCheck)
    ∧ ((verifyIssuerSignature collectCallback true exIA 20).delivered.filter
        (fun a => a.check == sigValidCheck)
      = [⟨if exIA.certificate.isSome && exIA.signatureValid then Status.PASSED
          else Status.FAILED, Category.ISSUER_AUTH, sigValidCheck, none⟩]) :=
  ⟨C8_disable_chain_validation.1 collectCallback exH 20 ⟨"1.0", [exDocBoth], 0⟩
      none none ⟨Status.PASSED, Category.ISSUER_AUTH, sigValidCheck, none⟩ (by decide),
   C8_disable_chain_validation.2 exIA 20⟩

theorem C1_digest_binding_witness :
    (verifyData collectCallback exH exDocFull).delivered.filter
        (fun a => a.check == digestCheck MDL_NAMESPACE exCountryItem.elementIdentifier)
      = [⟨if lookupDigest exDocFull.issuerSigned.issuerAuth.decodedPayload MDL_NAMESPACE
            exCountryItem.digestID
            = some (exH exDocFull.issuerSigned.issuerAuth.decodedPayload.digestAlgorithm
                exCountryItem.originalBytes)
          then Status.PASSED else Status.FAILED,
          Category.DATA_INTEGRITY,
          digestCheck MDL_NAMESPACE exCountryItem.elementIdentifier, none⟩] :=
  C1_digest_binding exH exDocFull exCert MDL_NAMESPACE [exCountryItem, exNameItem]
    exCountryItem rfl (by decide) (by decide) (by decide)
